import Mathlib

/-!
Verification development for `backend/composio_integration/toolkit_service.py`.

The module under study is a normalization adapter over a third-party toolkit
catalog client.  Upstream payloads are dynamically typed: a field may arrive as
a mapping (Python `dict`) or as an attribute-bearing object (probed through
`__dict__`).  We embed that dynamic value universe as the inductive `RVal`
below, give the Python operations the service uses their semantics on `RVal`
(truthiness, `dict.get`, the `in` operator, iteration, attribute probing), and
translate each method of `ToolkitService` into a Lean function.  Failures that
Python would raise (AttributeError / TypeError on a wrong shape, pydantic
validation errors at model construction) are modelled with `Except PyErr`.
-/

/-- Dynamic (Python-like) values as delivered by the upstream catalog client.
`vmap` is a mapping (`dict`), `vobj` an attribute-bearing object whose
`__dict__` holds the given bindings. -/
inductive RVal where
  | vnone : RVal
  | vbool : Bool → RVal
  | vint : Int → RVal
  | vstr : String → RVal
  | vlist : List RVal → RVal
  | vmap : List (String × RVal) → RVal
  | vobj : List (String × RVal) → RVal

mutual

/-- Decidable equality on dynamic values. -/
def RVal.deq : (a b : RVal) → Decidable (a = b)
  | .vnone, .vnone => isTrue rfl
  | .vbool x, .vbool y =>
    match decEq x y with
    | isTrue h => isTrue (by rw [h])
    | isFalse h => isFalse (fun hh => h (by injection hh))
  | .vint x, .vint y =>
    match decEq x y with
    | isTrue h => isTrue (by rw [h])
    | isFalse h => isFalse (fun hh => h (by injection hh))
  | .vstr x, .vstr y =>
    match decEq x y with
    | isTrue h => isTrue (by rw [h])
    | isFalse h => isFalse (fun hh => h (by injection hh))
  | .vlist xs, .vlist ys =>
    match RVal.deqList xs ys with
    | isTrue h => isTrue (by rw [h])
    | isFalse h => isFalse (fun hh => h (by injection hh))
  | .vmap xs, .vmap ys =>
    match RVal.deqKvs xs ys with
    | isTrue h => isTrue (by rw [h])
    | isFalse h => isFalse (fun hh => h (by injection hh))
  | .vobj xs, .vobj ys =>
    match RVal.deqKvs xs ys with
    | isTrue h => isTrue (by rw [h])
    | isFalse h => isFalse (fun hh => h (by injection hh))
  | .vnone, .vbool _ => isFalse nofun
  | .vnone, .vint _ => isFalse nofun
  | .vnone, .vstr _ => isFalse nofun
  | .vnone, .vlist _ => isFalse nofun
  | .vnone, .vmap _ => isFalse nofun
  | .vnone, .vobj _ => isFalse nofun
  | .vbool _, .vnone => isFalse nofun
  | .vbool _, .vint _ => isFalse nofun
  | .vbool _, .vstr _ => isFalse nofun
  | .vbool _, .vlist _ => isFalse nofun
  | .vbool _, .vmap _ => isFalse nofun
  | .vbool _, .vobj _ => isFalse nofun
  | .vint _, .vnone => isFalse nofun
  | .vint _, .vbool _ => isFalse nofun
  | .vint _, .vstr _ => isFalse nofun
  | .vint _, .vlist _ => isFalse nofun
  | .vint _, .vmap _ => isFalse nofun
  | .vint _, .vobj _ => isFalse nofun
  | .vstr _, .vnone => isFalse nofun
  | .vstr _, .vbool _ => isFalse nofun
  | .vstr _, .vint _ => isFalse nofun
  | .vstr _, .vlist _ => isFalse nofun
  | .vstr _, .vmap _ => isFalse nofun
  | .vstr _, .vobj _ => isFalse nofun
  | .vlist _, .vnone => isFalse nofun
  | .vlist _, .vbool _ => isFalse nofun
  | .vlist _, .vint _ => isFalse nofun
  | .vlist _, .vstr _ => isFalse nofun
  | .vlist _, .vmap _ => isFalse nofun
  | .vlist _, .vobj _ => isFalse nofun
  | .vmap _, .vnone => isFalse nofun
  | .vmap _, .vbool _ => isFalse nofun
  | .vmap _, .vint _ => isFalse nofun
  | .vmap _, .vstr _ => isFalse nofun
  | .vmap _, .vlist _ => isFalse nofun
  | .vmap _, .vobj _ => isFalse nofun
  | .vobj _, .vnone => isFalse nofun
  | .vobj _, .vbool _ => isFalse nofun
  | .vobj _, .vint _ => isFalse nofun
  | .vobj _, .vstr _ => isFalse nofun
  | .vobj _, .vlist _ => isFalse nofun
  | .vobj _, .vmap _ => isFalse nofun

/-- Decidable equality on lists of dynamic values. -/
def RVal.deqList : (xs ys : List RVal) → Decidable (xs = ys)
  | [], [] => isTrue rfl
  | [], _ :: _ => isFalse nofun
  | _ :: _, [] => isFalse nofun
  | x :: xs, y :: ys =>
    match RVal.deq x y, RVal.deqList xs ys with
    | isTrue h1, isTrue h2 => isTrue (by rw [h1, h2])
    | isFalse h1, _ => isFalse (fun hh => h1 (by injection hh))
    | _, isFalse h2 => isFalse (fun hh => h2 (by injection hh))

/-- Decidable equality on string-keyed binding lists of dynamic values. -/
def RVal.deqKvs : (xs ys : List (String × RVal)) → Decidable (xs = ys)
  | [], [] => isTrue rfl
  | [], _ :: _ => isFalse nofun
  | _ :: _, [] => isFalse nofun
  | (k, v) :: xs, (k2, v2) :: ys =>
    match decEq k k2, RVal.deq v v2, RVal.deqKvs xs ys with
    | isTrue h0, isTrue h1, isTrue h2 => isTrue (by rw [h0, h1, h2])
    | isFalse h0, _, _ =>
      isFalse (fun hh => by
        injection hh with hp hr
        exact h0 (congrArg Prod.fst hp))
    | _, isFalse h1, _ =>
      isFalse (fun hh => by
        injection hh with hp hr
        exact h1 (congrArg Prod.snd hp))
    | _, _, isFalse h2 => isFalse (fun hh => h2 (by injection hh))

end

instance : DecidableEq RVal := RVal.deq

/-- Errors raised by the Python runtime or by pydantic validation. -/
inductive PyErr where
  | attributeError : PyErr
  | typeError : PyErr
  | validationError : PyErr
  deriving DecidableEq

/-- Decidable equality for `Except` results. -/
def exceptDecEq {e a : Type} [DecidableEq e] [DecidableEq a] :
    (x y : Except e a) → Decidable (x = y)
  | .ok x, .ok y =>
    match decEq x y with
    | isTrue h => isTrue (by rw [h])
    | isFalse h => isFalse (fun hh => h (by injection hh))
  | .error x, .error y =>
    match decEq x y with
    | isTrue h => isTrue (by rw [h])
    | isFalse h => isFalse (fun hh => h (by injection hh))
  | .ok _, .error _ => isFalse nofun
  | .error _, .ok _ => isFalse nofun

instance {e a : Type} [DecidableEq e] [DecidableEq a] : DecidableEq (Except e a) :=
  exceptDecEq

/-- First-match lookup in an association list (Python `dict` access; real
dicts have unique keys, so first-match agrees with dict lookup). -/
def alGet : List (String × RVal) → String → Option RVal
  | [], _ => none
  | (k, v) :: rest, key => if k = key then some v else alGet rest key

/-- `d.get(key, dflt)`: lookup with a default for a missing key. -/
def alGetD (kvs : List (String × RVal)) (key : String) (dflt : RVal) : RVal :=
  (alGet kvs key).getD dflt

/-- `key in d` for a mapping. -/
def hasKey (kvs : List (String × RVal)) (key : String) : Bool :=
  (alGet kvs key).isSome

/-- Python truthiness of a value. -/
def truthy : RVal → Bool
  | .vnone => false
  | .vbool b => b
  | .vint n => n ≠ 0
  | .vstr s => s ≠ ""
  | .vlist xs => !xs.isEmpty
  | .vmap kvs => !kvs.isEmpty
  | .vobj _ => true

/-- Python `str.lower()` (ASCII case folding). -/
def pyLower (s : String) : String :=
  String.mk (s.toList.map Char.toLower)

/-- Contiguous-subsequence test on character lists. -/
def subSeq : List Char → List Char → Bool
  | n, [] => n.isEmpty
  | n, c :: t => List.isPrefixOf n (c :: t) || subSeq n t

/-- Python `needle in hay` on strings: substring containment. -/
def strIn (needle hay : String) : Bool :=
  subSeq needle.toList hay.toList

/-- The `x.__dict__ if hasattr(x, '__dict__') else x` probe followed by a
`dict` method call: objects expose `__dict__`, mappings answer directly, and
anything else raises `AttributeError` at the subsequent `.get`/`.items`. -/
def asDictOrRaise : RVal → Except PyErr (List (String × RVal))
  | .vobj kvs => .ok kvs
  | .vmap kvs => .ok kvs
  | _ => .error .attributeError

/-- The `x.__dict__ if hasattr(x, '__dict__') else (x or {})` probe: falsy
non-objects collapse to the empty dict, truthy non-dict values raise at the
subsequent dict method call. -/
def softDict : RVal → Except PyErr (List (String × RVal))
  | .vobj kvs => .ok kvs
  | .vmap kvs => .ok kvs
  | v => if truthy v then .error .attributeError else .ok []

/-- Python iteration `for x in v`: lists yield elements, mappings their keys,
strings their characters; the rest raise `TypeError`. -/
def pyIter : RVal → Except PyErr (List RVal)
  | .vlist xs => .ok xs
  | .vmap kvs => .ok (kvs.map fun kv => .vstr kv.1)
  | .vstr s => .ok (s.toList.map fun c => .vstr (String.mk [c]))
  | _ => .error .typeError

/-- Python `s in v` for a string `s`: list membership, substring test on a
string, key membership on a mapping; the rest raise `TypeError`. -/
def pyContains (s : String) : RVal → Except PyErr Bool
  | .vlist xs => .ok (xs.contains (.vstr s))
  | .vstr hay => .ok (strIn s hay)
  | .vmap kvs => .ok (hasKey kvs s)
  | _ => .error .typeError

/-- Pydantic validation of a required `str` field. -/
def asStr : RVal → Except PyErr String
  | .vstr s => .ok s
  | _ => .error .validationError

/-- Pydantic validation of an `Optional[str]` field. -/
def asOptStr : RVal → Except PyErr (Option String)
  | .vnone => .ok none
  | .vstr s => .ok (some s)
  | _ => .error .validationError

/-- Pydantic validation of a `bool` field. -/
def asBool : RVal → Except PyErr Bool
  | .vbool b => .ok b
  | _ => .error .validationError

/-- Pydantic validation of a `List[str]` field. -/
def asStrList : RVal → Except PyErr (List String)
  | .vlist xs => xs.mapM asStr
  | _ => .error .validationError

/-- Render a list of strings as a dynamic value. -/
def strListV (l : List String) : RVal :=
  .vlist (l.map .vstr)

/-! ## Typed records of `toolkit_service.py` (the pydantic models) -/

/-- `CategoryInfo` pydantic model. -/
structure CategoryInfo where
  id : String
  name : String
  deriving DecidableEq

/-- `ToolkitInfo` pydantic model (the toolkit summary). -/
structure ToolkitInfo where
  slug : String
  name : String
  description : Option String
  logo : Option String
  tags : List String
  auth_schemes : List String
  categories : List String
  deriving DecidableEq

/-- Result dict of `list_toolkits`: normalized items plus pagination fields
carried through as raw values (the Python code stores them untyped in a plain
dict). -/
structure ListResult where
  items : List ToolkitInfo
  total_items : RVal
  total_pages : RVal
  current_page : RVal
  next_cursor : RVal
  deriving DecidableEq

/-- Result dict of `search_toolkits`; its pagination fields are the literal
constants the code writes. -/
structure SearchResult where
  items : List ToolkitInfo
  total_items : Int
  total_pages : Int
  current_page : Int
  next_cursor : Option String
  deriving DecidableEq

/-! ## `list_toolkits` (lines 83-180) -/

/-- Lines 130-144: collect the tag names and category ids from
`meta["categories"]`, only when `meta` is a mapping that has the key; a
category entry that is neither a mapping nor an object is skipped. -/
def itemTagsCats (meta : RVal) : Except PyErr (List RVal × List RVal) :=
  match meta with
  | .vmap kvs =>
    if hasKey kvs "categories" then do
      let cats ← pyIter (alGetD kvs "categories" (.vlist []))
      let step := fun (acc : List RVal × List RVal) (cat : RVal) =>
        match cat with
        | .vmap ckvs =>
          (acc.1 ++ [alGetD ckvs "name" (.vstr "")],
           acc.2 ++ [alGetD ckvs "id" (.vstr "")])
        | .vobj ckvs =>
          (acc.1 ++ [alGetD ckvs "name" (.vstr "")],
           acc.2 ++ [alGetD ckvs "id" (.vstr "")])
        | _ => acc
      pure (cats.foldl step ([], []))
    else pure (([], []) : List RVal × List RVal)
  | _ => pure (([], []) : List RVal × List RVal)

/-- Per-item normalization, lines 106-164: unwrap the item into a dict,
drop it (`continue`, modelled as `none`) unless `"OAUTH2"` is in both
`auth_schemes` and `composio_managed_auth_schemes` (short-circuit `or`),
extract logo/description from `meta` with a fallback to the top-level fields,
collect tag names and category ids from `meta["categories"]`, and build the
`ToolkitInfo` model (pydantic validation may raise). -/
def normItem (item : RVal) : Except PyErr (Option ToolkitInfo) := do
  let td ← asDictOrRaise item
  let auth_schemes := alGetD td "auth_schemes" (.vlist [])
  let composio_managed := alGetD td "composio_managed_auth_schemes" (.vlist [])
  let b1 ← pyContains "OAUTH2" auth_schemes
  if !b1 then
    return none
  else
    let b2 ← pyContains "OAUTH2" composio_managed
    if !b2 then
      return none
    else
      let meta := alGetD td "meta" (.vmap [])
      let logo0 : RVal :=
        match meta with
        | .vmap kvs => alGetD kvs "logo" .vnone
        | .vobj kvs => alGetD kvs "logo" .vnone
        | _ => .vnone
      let logo_url := if truthy logo0 then logo0 else alGetD td "logo" .vnone
      let tagsCats ← itemTagsCats meta
      let descr0 : RVal :=
        match meta with
        | .vmap kvs => alGetD kvs "description" .vnone
        | .vobj kvs => alGetD kvs "description" .vnone
        | _ => .vnone
      let description := if truthy descr0 then descr0 else alGetD td "description" .vnone
      let slug ← asStr (alGetD td "slug" (.vstr ""))
      let name ← asStr (alGetD td "name" (.vstr ""))
      let descriptionS ← asOptStr description
      let logoS ← asOptStr logo_url
      let tagsS ← tagsCats.1.mapM asStr
      let authS ← asStrList auth_schemes
      let catsS ← tagsCats.2.mapM asStr
      return some
        { slug := slug, name := name, description := descriptionS,
          logo := logoS, tags := tagsS, auth_schemes := authS,
          categories := catsS }

/-- The item loop of `list_toolkits`: normalize items in order, keeping the
summaries of items that pass the OAUTH2 guard. -/
def collectItems : List RVal → Except PyErr (List ToolkitInfo)
  | [] => .ok []
  | i :: is => do
    let o ← normItem i
    let rest ← collectItems is
    match o with
    | some t => .ok (t :: rest)
    | none => .ok rest

/-- Lines 98-176: unwrap the client response, normalize its `items`, and
build the pagination dict, defaulting `total_items` to the count of kept
summaries and `total_pages`/`current_page`/`next_cursor` to `1`/`1`/`None`. -/
def normalizeResponse (resp : RVal) : Except PyErr ListResult := do
  let rd ← asDictOrRaise resp
  let rawItems ← pyIter (alGetD rd "items" (.vlist []))
  let toolkits ← collectItems rawItems
  pure
    { items := toolkits,
      total_items := alGetD rd "total_items" (.vint toolkits.length),
      total_pages := alGetD rd "total_pages" (.vint 1),
      current_page := alGetD rd "current_page" (.vint 1),
      next_cursor := alGetD rd "next_cursor" .vnone }

/-- Request parameters sent to `client.toolkits.list` (lines 86-94). -/
structure ListParams where
  limit : Int
  managed_by : String
  cursor : Option String
  category : Option String
  deriving DecidableEq

/-- Build the request parameters: `cursor` and `category` are added only when
truthy (so the empty string is dropped). -/
def mkListParams (limit : Int) (cursor category : Option String) : ListParams :=
  { limit := limit,
    managed_by := "composio",
    cursor := match cursor with
      | some s => if s = "" then none else some s
      | none => none,
    category := match category with
      | some s => if s = "" then none else some s
      | none => none }

/-- `ToolkitService.list_toolkits`: call the client (a function from request
parameters to a raised error or a raw response) and normalize; a client error
or a normalization error propagates to the caller (the `except` re-raises). -/
def list_toolkits (client : ListParams → Except PyErr RVal)
    (limit : Int := 500) (cursor : Option String := none)
    (category : Option String := none) : Except PyErr ListResult :=
  (client (mkListParams limit cursor category)).bind normalizeResponse

/-! ## `get_toolkit_by_slug`, `search_toolkits`, `get_toolkit_icon` -/

/-- The linear scan of lines 186-189. -/
def findSlug : List ToolkitInfo → String → Option ToolkitInfo
  | [], _ => none
  | t :: ts, s => if t.slug = s then some t else findSlug ts s

/-- `ToolkitService.get_toolkit_by_slug` (lines 182-192): fetch the full
listing with the default parameters (`limit=500`, no cursor, no category) and
scan for the slug; errors re-raise. -/
def get_toolkit_by_slug (client : ListParams → Except PyErr RVal)
    (slug : String) : Except PyErr (Option ToolkitInfo) :=
  (list_toolkits client).map (fun lr => findSlug lr.items slug)

/-- The search predicate of lines 200-205: the lowercased query is a
substring of the lowercased name, or the description is truthy and contains
it, or some tag contains it. -/
def matchesQuery (query : String) (t : ToolkitInfo) : Bool :=
  let ql := pyLower query
  strIn ql (pyLower t.name)
  || (match t.description with
      | some d => d ≠ "" && strIn ql (pyLower d)
      | none => false)
  || t.tags.any (fun tag => strIn ql (pyLower tag))

/-- Python list slicing `l[:k]`: for nonnegative `k` keep the first `k`
elements, for negative `k` drop the last `-k`. -/
def pySlice (l : List ToolkitInfo) (k : Int) : List ToolkitInfo :=
  if 0 ≤ k then l.take k.toNat else l.take (l.length - (-k).toNat)

/-- `ToolkitService.search_toolkits` (lines 194-222): fetch up to 500 listed
toolkits with the given cursor/category, filter by the query predicate,
truncate with `[:limit]`, and return fixed pagination fields; errors
re-raise. -/
def search_toolkits (client : ListParams → Except PyErr RVal) (query : String)
    (category : Option String := none) (limit : Int := 100)
    (cursor : Option String := none) : Except PyErr SearchResult :=
  (list_toolkits client 500 cursor category).map (fun lr =>
    let filtered := lr.items.filter (matchesQuery query)
    { items := pySlice filtered limit,
      total_items := (filtered.length : Int),
      total_pages := 1,
      current_page := 1,
      next_cursor := none })

/-- Body of `get_toolkit_icon` after a successful retrieve (lines 229-245):
unwrap the record, read `meta` and return `meta.logo` (with no fallback to
any top-level field); a wrongly-shaped record raises inside the `try`. -/
def iconBody (v : RVal) : Except PyErr RVal := do
  let td ← asDictOrRaise v
  let meta := alGetD td "meta" (.vmap [])
  pure
    (match meta with
     | .vmap kvs => alGetD kvs "logo" .vnone
     | .vobj kvs => alGetD kvs "logo" .vnone
     | _ => .vnone)

/-- `ToolkitService.get_toolkit_icon` (lines 224-249): on any failure of the
client or of the unwrapping, swallow the error and return `None`. -/
def get_toolkit_icon (retrieve : String → Except PyErr RVal)
    (toolkit_slug : String) : RVal :=
  match retrieve toolkit_slug with
  | .error _ => .vnone
  | .ok v =>
    match iconBody v with
    | .error _ => .vnone
    | .ok logo => logo

/-- `ToolkitService.list_categories` (lines 55-81): a fixed, hardcoded list;
the unused `special_apps` list is dead code and produces no effect. -/
def list_categories : List CategoryInfo :=
  [{ id := "popular", name := "Popular" },
   { id := "productivity", name := "Productivity" },
   { id := "crm", name := "CRM" },
   { id := "marketing", name := "Marketing" },
   { id := "analytics", name := "Analytics" },
   { id := "communication", name := "Communication" },
   { id := "project-management", name := "Project Management" },
   { id := "scheduling", name := "Scheduling" }]

/-! ## `get_detailed_toolkit_info` (lines 251-401) -/

/-- `AuthConfigField` pydantic model. -/
structure AuthConfigField where
  name : String
  displayName : String
  type : String
  description : Option String
  required : Bool
  default : Option String
  legacy_template_name : Option String
  deriving DecidableEq

/-- `AuthConfigDetails` pydantic model; `fields` maps a field type to the
requirement levels (`required`/`optional`) with their field lists. -/
structure AuthConfigDetails where
  name : String
  mode : String
  fields : List (String × List (String × List AuthConfigField))
  deriving DecidableEq

/-- `DetailedToolkitInfo` pydantic model.  `categories` is reassigned after
construction (line 283) without pydantic validation, so it holds raw values. -/
structure DetailedToolkitInfo where
  slug : String
  name : String
  description : Option String
  logo : Option String
  tags : List String
  auth_schemes : List String
  categories : List RVal
  auth_config_details : List AuthConfigDetails
  connected_account_initiation_fields : Option (List (String × List AuthConfigField))
  base_url : Option String
  deriving DecidableEq

/-- Lines 330-338 and 381-389: build one `AuthConfigField` from a raw field
record (dict or object), with pydantic validation. -/
def parseField (f : RVal) : Except PyErr AuthConfigField := do
  let fd ← asDictOrRaise f
  let nm ← asStr (alGetD fd "name" (.vstr ""))
  let dn ← asStr (alGetD fd "display_name" (.vstr ""))
  let ty ← asStr (alGetD fd "type" (.vstr "string"))
  let ds ← asOptStr (alGetD fd "description" .vnone)
  let rq ← asBool (alGetD fd "required" (.vbool false))
  let df ← asOptStr (alGetD fd "default" .vnone)
  let lt ← asOptStr (alGetD fd "legacy_template_name" .vnone)
  pure
    { name := nm, displayName := dn, type := ty, description := ds,
      required := rq, default := df, legacy_template_name := lt }

/-- Lines 321-339: `for field in field_list` over one requirement level. -/
def parseFieldList (v : RVal) : Except PyErr (List AuthConfigField) := do
  let xs ← pyIter v
  xs.mapM parseField

/-- Lines 311-339 inner body: both requirement levels of one field type. -/
def parseLevels (fieldTypeObj : RVal) : Except PyErr (List (String × List AuthConfigField)) := do
  let d ← softDict fieldTypeObj
  let req ← parseFieldList (alGetD d "required" (.vlist []))
  let opt ← parseFieldList (alGetD d "optional" (.vlist []))
  pure [("required", req), ("optional", opt)]

/-- Lines 294-345: one `AuthConfigDetails` from a raw auth config entry. -/
def parseConfig (c : RVal) : Except PyErr AuthConfigDetails := do
  let cd ← asDictOrRaise c
  let fd ← softDict (alGetD cd "fields" .vnone)
  let af ← fd.mapM (fun kv => do
    let lv ← parseLevels kv.2
    pure (kv.1, lv))
  let nm ← asStr (alGetD cd "name" (.vstr ""))
  let md ← asStr (alGetD cd "mode" (.vstr ""))
  pure { name := nm, mode := md, fields := af }

/-- Lines 350-391: scan the raw auth configs for the first one whose
`fields` binds a truthy `connected_account_initiation` group, and parse its
requirement levels; `break` after the first hit. -/
def scanInitiation : List RVal → Except PyErr (Option (List (String × List AuthConfigField)))
  | [] => .ok none
  | c :: cs => do
    let cd ← asDictOrRaise c
    let fd ← softDict (alGetD cd "fields" .vnone)
    let initObj := alGetD fd "connected_account_initiation" .vnone
    if truthy initObj then do
      let d ← asDictOrRaise initObj
      let req ← parseFieldList (alGetD d "required" (.vlist []))
      let opt ← parseFieldList (alGetD d "optional" (.vlist []))
      pure (some [("required", req), ("optional", opt)])
    else
      scanInitiation cs

/-- Line 284: the category-name extraction of the comprehension, probing a
mapping first and an attribute-bearing object second, with the empty string
as the `getattr` default. -/
def detailCatName : RVal → RVal
  | .vmap ckvs => alGetD ckvs "name" (.vstr "")
  | .vobj ckvs => alGetD ckvs "name" (.vstr "")
  | _ => .vstr ""

/-- Body of `get_detailed_toolkit_info` after a successful retrieve (lines
256-397): unwrap the record, convert an object-shaped `meta` to its
`__dict__`, build the `DetailedToolkitInfo` (description defaults to the
empty string, `auth_schemes` comes from `composio_managed_auth_schemes`),
reassign `categories` to the category names from `meta`, then parse
`auth_config_details` and the initiation fields. -/
def detailBody (v : RVal) : Except PyErr DetailedToolkitInfo := do
  let td ← asDictOrRaise v
  let meta0 := alGetD td "meta" (.vmap [])
  let meta : RVal :=
    match meta0 with
    | .vobj kvs => .vmap kvs
    | m => m
  let descrV : RVal :=
    match meta with
    | .vmap kvs => alGetD kvs "description" (.vstr "")
    | .vobj kvs => alGetD kvs "description" (.vstr "")
    | _ => .vstr ""
  let logoV : RVal :=
    match meta with
    | .vmap kvs => alGetD kvs "logo" .vnone
    | .vobj kvs => alGetD kvs "logo" .vnone
    | _ => .vnone
  let slug ← asStr (alGetD td "slug" (.vstr ""))
  let name ← asStr (alGetD td "name" (.vstr ""))
  let descr ← asOptStr descrV
  let logo ← asOptStr logoV
  let authS ← asStrList (alGetD td "composio_managed_auth_schemes" (.vlist []))
  let baseUrl ← asOptStr (alGetD td "base_url" .vnone)
  let catsData : RVal :=
    match meta with
    | .vmap kvs => alGetD kvs "categories" (.vlist [])
    | .vobj kvs => alGetD kvs "categories" (.vlist [])
    | _ => .vlist []
  let catsRaw ← pyIter catsData
  let cats := catsRaw.map detailCatName
  let rawConfigs ← pyIter (alGetD td "auth_config_details" (.vlist []))
  let configs ← rawConfigs.mapM parseConfig
  let initiation ← scanInitiation rawConfigs
  pure
    { slug := slug, name := name, description := descr, logo := logo,
      tags := [], auth_schemes := authS, categories := cats,
      auth_config_details := configs,
      connected_account_initiation_fields := initiation,
      base_url := baseUrl }

/-- `ToolkitService.get_detailed_toolkit_info` (lines 251-401): on any
failure of the client or of normalization, swallow the error and return
`None`. -/
def get_detailed_toolkit_info (retrieve : String → Except PyErr RVal)
    (toolkit_slug : String) : Option DetailedToolkitInfo :=
  match retrieve toolkit_slug with
  | .error _ => none
  | .ok v =>
    match detailBody v with
    | .error _ => none
    | .ok d => some d

/-! ## Logical toolkit payloads and their two deliveries

For the shape-agnosticism property we model a logical toolkit payload as a
typed tree (`PPayload`): each upstream key either carries a value or is
absent.  `renderPayload false p` delivers it as nested mappings,
`renderPayload true p` as nested attribute-bearing objects exposing the same
keys; the two renderings have identical binding lists at every node and
differ only in the mapping/object constructor. -/

/-- One auth-config field record of the upstream schema. -/
structure PField where
  fname : Option String
  fdisplay : Option String
  ftype : Option String
  fdescription : Option String
  frequired : Option Bool
  fdefault : Option String
  flegacy : Option String
  deriving DecidableEq

/-- One requirement-level group (`required`/`optional` field lists). -/
structure PGroup where
  greq : Option (List PField)
  gopt : Option (List PField)
  deriving DecidableEq

/-- One auth-config entry: name, mode and field-type groups. -/
structure PConfig where
  cname : Option String
  cmode : Option String
  cfields : Option (List (String × PGroup))
  deriving DecidableEq

/-- One category record inside `meta`. -/
structure PCat where
  pid : Option String
  pname : Option String
  deriving DecidableEq

/-- The `meta` substructure. -/
structure PMeta where
  mlogo : Option String
  mdescription : Option String
  mcategories : Option (List PCat)
  deriving DecidableEq

/-- A logical toolkit payload as returned by `client.toolkits.retrieve`. -/
structure PPayload where
  pslug : Option String
  ppname : Option String
  pcmas : Option (List String)
  pbase : Option String
  pmeta : Option PMeta
  pconfigs : Option (List PConfig)
  deriving DecidableEq

/-- A binding for a key that is present, nothing for an absent key. -/
def optEntry (k : String) : Option RVal → List (String × RVal)
  | some v => [(k, v)]
  | none => []

/-- Wrap bindings as an object (`true`) or a mapping (`false`). -/
def wrapKvs (o : Bool) (kvs : List (String × RVal)) : RVal :=
  if o then .vobj kvs else .vmap kvs

/-- Bindings of a field record; all values are leaves, so the bindings do not
depend on the delivery shape. -/
def fieldBs (f : PField) : List (String × RVal) :=
  optEntry "name" (f.fname.map .vstr) ++
  optEntry "display_name" (f.fdisplay.map .vstr) ++
  optEntry "type" (f.ftype.map .vstr) ++
  optEntry "description" (f.fdescription.map .vstr) ++
  optEntry "required" (f.frequired.map .vbool) ++
  optEntry "default" (f.fdefault.map .vstr) ++
  optEntry "legacy_template_name" (f.flegacy.map .vstr)

/-- Deliver a field record in the given shape. -/
def renderField (o : Bool) (f : PField) : RVal :=
  wrapKvs o (fieldBs f)

/-- Bindings of a requirement-level group. -/
def groupBs (o : Bool) (g : PGroup) : List (String × RVal) :=
  optEntry "required" (g.greq.map (fun l => .vlist (l.map (renderField o)))) ++
  optEntry "optional" (g.gopt.map (fun l => .vlist (l.map (renderField o))))

/-- Deliver a group in the given shape. -/
def renderGroup (o : Bool) (g : PGroup) : RVal :=
  wrapKvs o (groupBs o g)

/-- Bindings of an auth-config entry. -/
def configBs (o : Bool) (c : PConfig) : List (String × RVal) :=
  optEntry "name" (c.cname.map .vstr) ++
  optEntry "mode" (c.cmode.map .vstr) ++
  optEntry "fields"
    (c.cfields.map (fun l => wrapKvs o (l.map (fun kv => (kv.1, renderGroup o kv.2)))))

/-- Deliver an auth-config entry in the given shape. -/
def renderConfig (o : Bool) (c : PConfig) : RVal :=
  wrapKvs o (configBs o c)

/-- Bindings of a category record (leaves only). -/
def catBs (c : PCat) : List (String × RVal) :=
  optEntry "id" (c.pid.map .vstr) ++ optEntry "name" (c.pname.map .vstr)

/-- Deliver a category record in the given shape. -/
def renderCat (o : Bool) (c : PCat) : RVal :=
  wrapKvs o (catBs c)

/-- Bindings of the `meta` substructure. -/
def metaBs (o : Bool) (m : PMeta) : List (String × RVal) :=
  optEntry "logo" (m.mlogo.map .vstr) ++
  optEntry "description" (m.mdescription.map .vstr) ++
  optEntry "categories" (m.mcategories.map (fun l => .vlist (l.map (renderCat o))))

/-- Deliver the `meta` substructure in the given shape. -/
def renderMeta (o : Bool) (m : PMeta) : RVal :=
  wrapKvs o (metaBs o m)

/-- Bindings of a whole payload. -/
def payloadBs (o : Bool) (p : PPayload) : List (String × RVal) :=
  optEntry "slug" (p.pslug.map .vstr) ++
  optEntry "name" (p.ppname.map .vstr) ++
  optEntry "composio_managed_auth_schemes" (p.pcmas.map strListV) ++
  optEntry "base_url" (p.pbase.map .vstr) ++
  optEntry "meta" (p.pmeta.map (renderMeta o)) ++
  optEntry "auth_config_details" (p.pconfigs.map (fun l => .vlist (l.map (renderConfig o))))

/-- Deliver a whole payload in the given shape: `false` is nested mappings,
`true` is nested attribute-bearing objects with the same keys. -/
def renderPayload (o : Bool) (p : PPayload) : RVal :=
  wrapKvs o (payloadBs o p)

/-- A group delivered as a mapping is truthy exactly when one of its keys is
present. -/
def groupPresent (g : PGroup) : Bool :=
  g.greq.isSome || g.gopt.isSome

/-- The auth-config entry binds `connected_account_initiation` (if at all)
to a group with at least one requirement-level key present. -/
def configInitOk (c : PConfig) : Bool :=
  match c.cfields with
  | none => true
  | some l => l.all (fun kv =>
      kv.1 ≠ "connected_account_initiation" || groupPresent kv.2)

/-- No auth-config entry of the payload binds `connected_account_initiation`
to a group with neither `required` nor `optional` present (such a group is a
falsy empty mapping in one delivery but a truthy object in the other). -/
def payloadInitOk (p : PPayload) : Bool :=
  match p.pconfigs with
  | none => true
  | some cs => cs.all configInitOk

/-! ## Basic lemmas about the dynamic-value helpers -/

@[simp] theorem alGet_nil (k : String) : alGet [] k = none := rfl

@[simp] theorem alGet_append (l1 l2 : List (String × RVal)) (k : String) :
    alGet (l1 ++ l2) k = (alGet l1 k).or (alGet l2 k) := by
  induction l1 with
  | nil => simp [alGet]
  | cons kv rest ih =>
    obtain ⟨k1, v1⟩ := kv
    by_cases h : k1 = k <;> simp [alGet, h, ih]

@[simp] theorem alGet_optEntry_self (k : String) (v : Option RVal) :
    alGet (optEntry k v) k = v := by
  cases v <;> simp [optEntry, alGet]

@[simp] theorem alGet_optEntry_ne (k k2 : String) (h : k ≠ k2) (v : Option RVal) :
    alGet (optEntry k v) k2 = none := by
  cases v <;> simp [optEntry, alGet, h]

@[simp] theorem asDictOrRaise_wrap (o : Bool) (bs : List (String × RVal)) :
    asDictOrRaise (wrapKvs o bs) = .ok bs := by
  cases o <;> simp [wrapKvs, asDictOrRaise]

@[simp] theorem softDict_wrap (o : Bool) (bs : List (String × RVal)) :
    softDict (wrapKvs o bs) = .ok bs := by
  cases o <;> rfl

@[simp] theorem ok_bind {α β : Type} (a : α) (f : α → Except PyErr β) :
    (Except.ok a >>= f) = f a := rfl

@[simp] theorem error_bind {α β : Type} (e : PyErr) (f : α → Except PyErr β) :
    (Except.error e >>= f) = Except.error e := rfl

@[simp] theorem pure_eq_ok {α : Type} (a : α) : (pure a : Except PyErr α) = .ok a := rfl

@[simp] theorem except_bind_ok {α β : Type} (a : α) (f : α → Except PyErr β) :
    (Except.ok a).bind f = f a := rfl

@[simp] theorem except_bind_error {α β : Type} (e : PyErr) (f : α → Except PyErr β) :
    (Except.error e : Except PyErr α).bind f = .error e := rfl

@[simp] theorem except_map_ok {α β : Type} (a : α) (f : α → β) :
    Except.map f (.ok a : Except PyErr α) = .ok (f a) := rfl

@[simp] theorem except_map_error {α β : Type} (e : PyErr) (f : α → β) :
    Except.map f (.error e : Except PyErr α) = .error e := rfl

/-! ## Shape-agnosticism lemmas for `get_detailed_toolkit_info` -/

theorem parseField_shape (bs : List (String × RVal)) :
    parseField (.vobj bs) = parseField (.vmap bs) := rfl

theorem parseFieldList_shape (l : List PField) :
    parseFieldList (.vlist (l.map (renderField true))) =
    parseFieldList (.vlist (l.map (renderField false))) := by
  induction l with
  | nil => rfl
  | cons f fs ih =>
    simp only [parseFieldList, pyIter, ok_bind, List.map_cons, List.mapM_cons] at *
    rw [show parseField (renderField true f) = parseField (renderField false f) from
      parseField_shape (fieldBs f), ih]

theorem parseFieldList_opt_shape (og : Option (List PField)) :
    parseFieldList ((og.map (fun l => RVal.vlist (l.map (renderField true)))).getD (.vlist [])) =
    parseFieldList ((og.map (fun l => RVal.vlist (l.map (renderField false)))).getD (.vlist [])) := by
  cases og with
  | none => rfl
  | some l => simpa using parseFieldList_shape l

theorem parseLevels_shape (g : PGroup) :
    parseLevels (renderGroup true g) = parseLevels (renderGroup false g) := by
  simp only [parseLevels, renderGroup, softDict_wrap, ok_bind, groupBs, alGetD,
    alGet_append, alGet_optEntry_self,
    alGet_optEntry_ne "optional" "required" (by decide),
    alGet_optEntry_ne "required" "optional" (by decide),
    Option.or_none, Option.none_or]
  rw [parseFieldList_opt_shape g.greq, parseFieldList_opt_shape g.gopt]

theorem configFields_shape (l : List (String × PGroup)) :
    (l.map (fun kv => (kv.1, renderGroup true kv.2))).mapM
        (fun kv => do
          let lv ← parseLevels kv.2
          pure (kv.1, lv)) =
    (l.map (fun kv => (kv.1, renderGroup false kv.2))).mapM
        (fun kv => do
          let lv ← parseLevels kv.2
          pure (kv.1, lv)) := by
  induction l with
  | nil => rfl
  | cons kv rest ih =>
    simp only [List.map_cons, List.mapM_cons]
    rw [parseLevels_shape kv.2, ih]

theorem parseConfig_shape (c : PConfig) :
    parseConfig (renderConfig true c) = parseConfig (renderConfig false c) := by
  simp only [parseConfig, renderConfig, asDictOrRaise_wrap, ok_bind, configBs, alGetD,
    alGet_append, alGet_optEntry_self,
    alGet_optEntry_ne "name" "mode" (by decide),
    alGet_optEntry_ne "name" "fields" (by decide),
    alGet_optEntry_ne "mode" "name" (by decide),
    alGet_optEntry_ne "mode" "fields" (by decide),
    alGet_optEntry_ne "fields" "name" (by decide),
    alGet_optEntry_ne "fields" "mode" (by decide),
    Option.or_none, Option.none_or]
  cases c.cfields with
  | none => rfl
  | some l =>
    simp only [Option.map_some', Option.getD_some, softDict_wrap, ok_bind]
    rw [configFields_shape l]

theorem configsList_shape (cs : List PConfig) :
    (cs.map (renderConfig true)).mapM parseConfig =
    (cs.map (renderConfig false)).mapM parseConfig := by
  induction cs with
  | nil => rfl
  | cons c rest ih =>
    simp only [List.map_cons, List.mapM_cons]
    rw [parseConfig_shape c, ih]

/-- Generic first-match lookup in a group association list. -/
def pgFind : List (String × PGroup) → String → Option PGroup
  | [], _ => none
  | (k, v) :: rest, key => if k = key then some v else pgFind rest key

theorem alGet_map_group (o : Bool) (l : List (String × PGroup)) (k : String) :
    alGet (l.map (fun kv => (kv.1, renderGroup o kv.2))) k =
    (pgFind l k).map (renderGroup o) := by
  induction l with
  | nil => rfl
  | cons kv rest ih =>
    by_cases h : kv.1 = k <;> simp [alGet, pgFind, h, ih]

theorem pgFind_all {l : List (String × PGroup)} {k : String} {g : PGroup}
    {f : String × PGroup → Bool} (hfind : pgFind l k = some g)
    (hall : l.all f = true) : f (k, g) = true := by
  induction l with
  | nil => simp [pgFind] at hfind
  | cons kv rest ih =>
    obtain ⟨k1, g1⟩ := kv
    simp only [List.all_cons, Bool.and_eq_true] at hall
    by_cases h : k1 = k
    · subst h
      simp only [pgFind, if_true, eq_self_iff_true, Option.some.injEq] at hfind
      subst hfind
      exact hall.1
    · simp only [pgFind, if_neg h] at hfind
      exact ih hfind hall.2

theorem groupBs_not_empty {g : PGroup} (h : groupPresent g = true) (o : Bool) :
    (groupBs o g).isEmpty = false := by
  cases hr : g.greq <;> cases ho : g.gopt <;>
    simp_all [groupPresent, groupBs, optEntry]

theorem scanInitiation_shape (cs : List PConfig) (h : cs.all configInitOk = true) :
    scanInitiation (cs.map (renderConfig true)) =
    scanInitiation (cs.map (renderConfig false)) := by
  induction cs with
  | nil => rfl
  | cons c rest ih =>
    simp only [List.all_cons, Bool.and_eq_true] at h
    have ihr := ih h.2
    cases hc : c.cfields with
    | none =>
      simp only [List.map_cons, scanInitiation, renderConfig, asDictOrRaise_wrap,
        ok_bind, configBs, hc, Option.map_none', alGetD, alGet_append,
        alGet_optEntry_self,
        alGet_optEntry_ne "name" "fields" (by decide),
        alGet_optEntry_ne "mode" "fields" (by decide),
        Option.or_none, Option.none_or, Option.getD_none]
      simpa [softDict, truthy, alGet] using ihr
    | some l =>
      simp only [List.map_cons, scanInitiation, renderConfig, asDictOrRaise_wrap,
        ok_bind, configBs, hc, Option.map_some', alGetD, alGet_append,
        alGet_optEntry_self,
        alGet_optEntry_ne "name" "fields" (by decide),
        alGet_optEntry_ne "mode" "fields" (by decide),
        Option.or_none, Option.none_or, Option.getD_some, softDict_wrap,
        alGet_map_group]
      cases hfind : pgFind l "connected_account_initiation" with
      | none =>
        simpa using ihr
      | some g =>
        have hcfg := h.1
        simp only [configInitOk, hc] at hcfg
        have hkv := pgFind_all hfind hcfg
        simp only [decide_eq_true_eq, Bool.or_eq_true, decide_not] at hkv
        have hpres : groupPresent g = true := by
          rcases hkv with hk | hk
          · simp at hk
          · exact hk
        have ht : truthy (renderGroup true g) = true := rfl
        have hf : truthy (renderGroup false g) = true := by
          simp [renderGroup, wrapKvs, truthy, groupBs_not_empty hpres]
        simp only [Option.map_some', Option.getD_some, ht, hf, eq_self_iff_true,
          if_true]
        simp only [renderGroup, asDictOrRaise_wrap, ok_bind, groupBs, alGetD,
          alGet_append, alGet_optEntry_self,
          alGet_optEntry_ne "optional" "required" (by decide),
          alGet_optEntry_ne "required" "optional" (by decide),
          Option.or_none, Option.none_or]
        rw [parseFieldList_opt_shape g.greq, parseFieldList_opt_shape g.gopt]

@[simp] theorem wrapKvs_true (bs : List (String × RVal)) :
    wrapKvs true bs = .vobj bs := rfl

@[simp] theorem wrapKvs_false (bs : List (String × RVal)) :
    wrapKvs false bs = .vmap bs := rfl

@[simp] theorem asDictOrRaise_vobj (bs : List (String × RVal)) :
    asDictOrRaise (.vobj bs) = .ok bs := rfl

@[simp] theorem asDictOrRaise_vmap (bs : List (String × RVal)) :
    asDictOrRaise (.vmap bs) = .ok bs := rfl

theorem catsList_shape (l : List PCat) :
    (l.map (renderCat true)).map detailCatName =
    (l.map (renderCat false)).map detailCatName := by
  induction l with
  | nil => rfl
  | cons c rest ih =>
    simp only [List.map_cons, ih, List.cons.injEq, and_true]
    rfl

theorem detailBody_shape (p : PPayload) (h : payloadInitOk p = true) :
    detailBody (renderPayload true p) = detailBody (renderPayload false p) := by
  have hscan : ∀ cl : List PConfig, p.pconfigs = some cl →
      scanInitiation (cl.map (renderConfig true)) =
      scanInitiation (cl.map (renderConfig false)) := by
    intro cl hcl
    apply scanInitiation_shape
    simpa [payloadInitOk, hcl] using h
  cases hm : p.pmeta with
  | none =>
    cases hcfg : p.pconfigs with
    | none =>
      simp only [detailBody,
        renderPayload,
        payloadBs,
        hm,
        hcfg,
        Option.map_none',
        Option.map_some',
        alGetD,
        alGet_append,
        alGet_optEntry_self,
        alGet_optEntry_ne "name" "slug" (by decide),
        alGet_optEntry_ne "composio_managed_auth_schemes" "slug" (by decide),
        alGet_optEntry_ne "base_url" "slug" (by decide),
        alGet_optEntry_ne "meta" "slug" (by decide),
        alGet_optEntry_ne "auth_config_details" "slug" (by decide),
        alGet_optEntry_ne "slug" "name" (by decide),
        alGet_optEntry_ne "composio_managed_auth_schemes" "name" (by decide),
        alGet_optEntry_ne "base_url" "name" (by decide),
        alGet_optEntry_ne "meta" "name" (by decide),
        alGet_optEntry_ne "auth_config_details" "name" (by decide),
        alGet_optEntry_ne "slug" "composio_managed_auth_schemes" (by decide),
        alGet_optEntry_ne "name" "composio_managed_auth_schemes" (by decide),
        alGet_optEntry_ne "base_url" "composio_managed_auth_schemes" (by decide),
        alGet_optEntry_ne "meta" "composio_managed_auth_schemes" (by decide),
        alGet_optEntry_ne "auth_config_details" "composio_managed_auth_schemes" (by decide),
        alGet_optEntry_ne "slug" "base_url" (by decide),
        alGet_optEntry_ne "name" "base_url" (by decide),
        alGet_optEntry_ne "composio_managed_auth_schemes" "base_url" (by decide),
        alGet_optEntry_ne "meta" "base_url" (by decide),
        alGet_optEntry_ne "auth_config_details" "base_url" (by decide),
        alGet_optEntry_ne "slug" "meta" (by decide),
        alGet_optEntry_ne "name" "meta" (by decide),
        alGet_optEntry_ne "composio_managed_auth_schemes" "meta" (by decide),
        alGet_optEntry_ne "base_url" "meta" (by decide),
        alGet_optEntry_ne "auth_config_details" "meta" (by decide),
        alGet_optEntry_ne "slug" "auth_config_details" (by decide),
        alGet_optEntry_ne "name" "auth_config_details" (by decide),
        alGet_optEntry_ne "composio_managed_auth_schemes" "auth_config_details" (by decide),
        alGet_optEntry_ne "base_url" "auth_config_details" (by decide),
        alGet_optEntry_ne "meta" "auth_config_details" (by decide),
        Option.or_none,
        Option.none_or,
        Option.getD_none,
        Option.getD_some,
        wrapKvs_true,
        wrapKvs_false,
        asDictOrRaise_vobj,
        asDictOrRaise_vmap,
        ok_bind,
        pyIter]
    | some cl =>
      simp only [detailBody,
        renderPayload,
        payloadBs,
        hm,
        hcfg,
        Option.map_none',
        Option.map_some',
        alGetD,
        alGet_append,
        alGet_optEntry_self,
        alGet_optEntry_ne "name" "slug" (by decide),
        alGet_optEntry_ne "composio_managed_auth_schemes" "slug" (by decide),
        alGet_optEntry_ne "base_url" "slug" (by decide),
        alGet_optEntry_ne "meta" "slug" (by decide),
        alGet_optEntry_ne "auth_config_details" "slug" (by decide),
        alGet_optEntry_ne "slug" "name" (by decide),
        alGet_optEntry_ne "composio_managed_auth_schemes" "name" (by decide),
        alGet_optEntry_ne "base_url" "name" (by decide),
        alGet_optEntry_ne "meta" "name" (by decide),
        alGet_optEntry_ne "auth_config_details" "name" (by decide),
        alGet_optEntry_ne "slug" "composio_managed_auth_schemes" (by decide),
        alGet_optEntry_ne "name" "composio_managed_auth_schemes" (by decide),
        alGet_optEntry_ne "base_url" "composio_managed_auth_schemes" (by decide),
        alGet_optEntry_ne "meta" "composio_managed_auth_schemes" (by decide),
        alGet_optEntry_ne "auth_config_details" "composio_managed_auth_schemes" (by decide),
        alGet_optEntry_ne "slug" "base_url" (by decide),
        alGet_optEntry_ne "name" "base_url" (by decide),
        alGet_optEntry_ne "composio_managed_auth_schemes" "base_url" (by decide),
        alGet_optEntry_ne "meta" "base_url" (by decide),
        alGet_optEntry_ne "auth_config_details" "base_url" (by decide),
        alGet_optEntry_ne "slug" "meta" (by decide),
        alGet_optEntry_ne "name" "meta" (by decide),
        alGet_optEntry_ne "composio_managed_auth_schemes" "meta" (by decide),
        alGet_optEntry_ne "base_url" "meta" (by decide),
        alGet_optEntry_ne "auth_config_details" "meta" (by decide),
        alGet_optEntry_ne "slug" "auth_config_details" (by decide),
        alGet_optEntry_ne "name" "auth_config_details" (by decide),
        alGet_optEntry_ne "composio_managed_auth_schemes" "auth_config_details" (by decide),
        alGet_optEntry_ne "base_url" "auth_config_details" (by decide),
        alGet_optEntry_ne "meta" "auth_config_details" (by decide),
        Option.or_none,
        Option.none_or,
        Option.getD_none,
        Option.getD_some,
        wrapKvs_true,
        wrapKvs_false,
        asDictOrRaise_vobj,
        asDictOrRaise_vmap,
        ok_bind,
        pyIter,
        configsList_shape,
        hscan cl hcfg]
  | some m =>
    cases hcats : m.mcategories with
    | none =>
      cases hcfg : p.pconfigs with
      | none =>
        simp only [detailBody,
          renderPayload,
          payloadBs,
          hm,
          hcfg,
          Option.map_none',
          Option.map_some',
          alGetD,
          alGet_append,
          alGet_optEntry_self,
          alGet_optEntry_ne "name" "slug" (by decide),
          alGet_optEntry_ne "composio_managed_auth_schemes" "slug" (by decide),
          alGet_optEntry_ne "base_url" "slug" (by decide),
          alGet_optEntry_ne "meta" "slug" (by decide),
          alGet_optEntry_ne "auth_config_details" "slug" (by decide),
          alGet_optEntry_ne "slug" "name" (by decide),
          alGet_optEntry_ne "composio_managed_auth_schemes" "name" (by decide),
          alGet_optEntry_ne "base_url" "name" (by decide),
          alGet_optEntry_ne "meta" "name" (by decide),
          alGet_optEntry_ne "auth_config_details" "name" (by decide),
          alGet_optEntry_ne "slug" "composio_managed_auth_schemes" (by decide),
          alGet_optEntry_ne "name" "composio_managed_auth_schemes" (by decide),
          alGet_optEntry_ne "base_url" "composio_managed_auth_schemes" (by decide),
          alGet_optEntry_ne "meta" "composio_managed_auth_schemes" (by decide),
          alGet_optEntry_ne "auth_config_details" "composio_managed_auth_schemes" (by decide),
          alGet_optEntry_ne "slug" "base_url" (by decide),
          alGet_optEntry_ne "name" "base_url" (by decide),
          alGet_optEntry_ne "composio_managed_auth_schemes" "base_url" (by decide),
          alGet_optEntry_ne "meta" "base_url" (by decide),
          alGet_optEntry_ne "auth_config_details" "base_url" (by decide),
          alGet_optEntry_ne "slug" "meta" (by decide),
          alGet_optEntry_ne "name" "meta" (by decide),
          alGet_optEntry_ne "composio_managed_auth_schemes" "meta" (by decide),
          alGet_optEntry_ne "base_url" "meta" (by decide),
          alGet_optEntry_ne "auth_config_details" "meta" (by decide),
          alGet_optEntry_ne "slug" "auth_config_details" (by decide),
          alGet_optEntry_ne "name" "auth_config_details" (by decide),
          alGet_optEntry_ne "composio_managed_auth_schemes" "auth_config_details" (by decide),
          alGet_optEntry_ne "base_url" "auth_config_details" (by decide),
          alGet_optEntry_ne "meta" "auth_config_details" (by decide),
          Option.or_none,
          Option.none_or,
          Option.getD_none,
          Option.getD_some,
          wrapKvs_true,
          wrapKvs_false,
          asDictOrRaise_vobj,
          asDictOrRaise_vmap,
          ok_bind,
          pyIter,
          renderMeta,
          metaBs,
          hcats,
          alGet_optEntry_ne "description" "logo" (by decide),
          alGet_optEntry_ne "categories" "logo" (by decide),
          alGet_optEntry_ne "logo" "description" (by decide),
          alGet_optEntry_ne "categories" "description" (by decide),
          alGet_optEntry_ne "logo" "categories" (by decide),
          alGet_optEntry_ne "description" "categories" (by decide)]
      | some cl =>
        simp only [detailBody,
          renderPayload,
          payloadBs,
          hm,
          hcfg,
          Option.map_none',
          Option.map_some',
          alGetD,
          alGet_append,
          alGet_optEntry_self,
          alGet_optEntry_ne "name" "slug" (by decide),
          alGet_optEntry_ne "composio_managed_auth_schemes" "slug" (by decide),
          alGet_optEntry_ne "base_url" "slug" (by decide),
          alGet_optEntry_ne "meta" "slug" (by decide),
          alGet_optEntry_ne "auth_config_details" "slug" (by decide),
          alGet_optEntry_ne "slug" "name" (by decide),
          alGet_optEntry_ne "composio_managed_auth_schemes" "name" (by decide),
          alGet_optEntry_ne "base_url" "name" (by decide),
          alGet_optEntry_ne "meta" "name" (by decide),
          alGet_optEntry_ne "auth_config_details" "name" (by decide),
          alGet_optEntry_ne "slug" "composio_managed_auth_schemes" (by decide),
          alGet_optEntry_ne "name" "composio_managed_auth_schemes" (by decide),
          alGet_optEntry_ne "base_url" "composio_managed_auth_schemes" (by decide),
          alGet_optEntry_ne "meta" "composio_managed_auth_schemes" (by decide),
          alGet_optEntry_ne "auth_config_details" "composio_managed_auth_schemes" (by decide),
          alGet_optEntry_ne "slug" "base_url" (by decide),
          alGet_optEntry_ne "name" "base_url" (by decide),
          alGet_optEntry_ne "composio_managed_auth_schemes" "base_url" (by decide),
          alGet_optEntry_ne "meta" "base_url" (by decide),
          alGet_optEntry_ne "auth_config_details" "base_url" (by decide),
          alGet_optEntry_ne "slug" "meta" (by decide),
          alGet_optEntry_ne "name" "meta" (by decide),
          alGet_optEntry_ne "composio_managed_auth_schemes" "meta" (by decide),
          alGet_optEntry_ne "base_url" "meta" (by decide),
          alGet_optEntry_ne "auth_config_details" "meta" (by decide),
          alGet_optEntry_ne "slug" "auth_config_details" (by decide),
          alGet_optEntry_ne "name" "auth_config_details" (by decide),
          alGet_optEntry_ne "composio_managed_auth_schemes" "auth_config_details" (by decide),
          alGet_optEntry_ne "base_url" "auth_config_details" (by decide),
          alGet_optEntry_ne "meta" "auth_config_details" (by decide),
          Option.or_none,
          Option.none_or,
          Option.getD_none,
          Option.getD_some,
          wrapKvs_true,
          wrapKvs_false,
          asDictOrRaise_vobj,
          asDictOrRaise_vmap,
          ok_bind,
          pyIter,
          renderMeta,
          metaBs,
          hcats,
          alGet_optEntry_ne "description" "logo" (by decide),
          alGet_optEntry_ne "categories" "logo" (by decide),
          alGet_optEntry_ne "logo" "description" (by decide),
          alGet_optEntry_ne "categories" "description" (by decide),
          alGet_optEntry_ne "logo" "categories" (by decide),
          alGet_optEntry_ne "description" "categories" (by decide),
          configsList_shape,
          hscan cl hcfg]
    | some cl2 =>
      cases hcfg : p.pconfigs with
      | none =>
        simp only [detailBody,
          renderPayload,
          payloadBs,
          hm,
          hcfg,
          Option.map_none',
          Option.map_some',
          alGetD,
          alGet_append,
          alGet_optEntry_self,
          alGet_optEntry_ne "name" "slug" (by decide),
          alGet_optEntry_ne "composio_managed_auth_schemes" "slug" (by decide),
          alGet_optEntry_ne "base_url" "slug" (by decide),
          alGet_optEntry_ne "meta" "slug" (by decide),
          alGet_optEntry_ne "auth_config_details" "slug" (by decide),
          alGet_optEntry_ne "slug" "name" (by decide),
          alGet_optEntry_ne "composio_managed_auth_schemes" "name" (by decide),
          alGet_optEntry_ne "base_url" "name" (by decide),
          alGet_optEntry_ne "meta" "name" (by decide),
          alGet_optEntry_ne "auth_config_details" "name" (by decide),
          alGet_optEntry_ne "slug" "composio_managed_auth_schemes" (by decide),
          alGet_optEntry_ne "name" "composio_managed_auth_schemes" (by decide),
          alGet_optEntry_ne "base_url" "composio_managed_auth_schemes" (by decide),
          alGet_optEntry_ne "meta" "composio_managed_auth_schemes" (by decide),
          alGet_optEntry_ne "auth_config_details" "composio_managed_auth_schemes" (by decide),
          alGet_optEntry_ne "slug" "base_url" (by decide),
          alGet_optEntry_ne "name" "base_url" (by decide),
          alGet_optEntry_ne "composio_managed_auth_schemes" "base_url" (by decide),
          alGet_optEntry_ne "meta" "base_url" (by decide),
          alGet_optEntry_ne "auth_config_details" "base_url" (by decide),
          alGet_optEntry_ne "slug" "meta" (by decide),
          alGet_optEntry_ne "name" "meta" (by decide),
          alGet_optEntry_ne "composio_managed_auth_schemes" "meta" (by decide),
          alGet_optEntry_ne "base_url" "meta" (by decide),
          alGet_optEntry_ne "auth_config_details" "meta" (by decide),
          alGet_optEntry_ne "slug" "auth_config_details" (by decide),
          alGet_optEntry_ne "name" "auth_config_details" (by decide),
          alGet_optEntry_ne "composio_managed_auth_schemes" "auth_config_details" (by decide),
          alGet_optEntry_ne "base_url" "auth_config_details" (by decide),
          alGet_optEntry_ne "meta" "auth_config_details" (by decide),
          Option.or_none,
          Option.none_or,
          Option.getD_none,
          Option.getD_some,
          wrapKvs_true,
          wrapKvs_false,
          asDictOrRaise_vobj,
          asDictOrRaise_vmap,
          ok_bind,
          pyIter,
          renderMeta,
          metaBs,
          hcats,
          alGet_optEntry_ne "description" "logo" (by decide),
          alGet_optEntry_ne "categories" "logo" (by decide),
          alGet_optEntry_ne "logo" "description" (by decide),
          alGet_optEntry_ne "categories" "description" (by decide),
          alGet_optEntry_ne "logo" "categories" (by decide),
          alGet_optEntry_ne "description" "categories" (by decide),
          catsList_shape]
      | some cl =>
        simp only [detailBody,
          renderPayload,
          payloadBs,
          hm,
          hcfg,
          Option.map_none',
          Option.map_some',
          alGetD,
          alGet_append,
          alGet_optEntry_self,
          alGet_optEntry_ne "name" "slug" (by decide),
          alGet_optEntry_ne "composio_managed_auth_schemes" "slug" (by decide),
          alGet_optEntry_ne "base_url" "slug" (by decide),
          alGet_optEntry_ne "meta" "slug" (by decide),
          alGet_optEntry_ne "auth_config_details" "slug" (by decide),
          alGet_optEntry_ne "slug" "name" (by decide),
          alGet_optEntry_ne "composio_managed_auth_schemes" "name" (by decide),
          alGet_optEntry_ne "base_url" "name" (by decide),
          alGet_optEntry_ne "meta" "name" (by decide),
          alGet_optEntry_ne "auth_config_details" "name" (by decide),
          alGet_optEntry_ne "slug" "composio_managed_auth_schemes" (by decide),
          alGet_optEntry_ne "name" "composio_managed_auth_schemes" (by decide),
          alGet_optEntry_ne "base_url" "composio_managed_auth_schemes" (by decide),
          alGet_optEntry_ne "meta" "composio_managed_auth_schemes" (by decide),
          alGet_optEntry_ne "auth_config_details" "composio_managed_auth_schemes" (by decide),
          alGet_optEntry_ne "slug" "base_url" (by decide),
          alGet_optEntry_ne "name" "base_url" (by decide),
          alGet_optEntry_ne "composio_managed_auth_schemes" "base_url" (by decide),
          alGet_optEntry_ne "meta" "base_url" (by decide),
          alGet_optEntry_ne "auth_config_details" "base_url" (by decide),
          alGet_optEntry_ne "slug" "meta" (by decide),
          alGet_optEntry_ne "name" "meta" (by decide),
          alGet_optEntry_ne "composio_managed_auth_schemes" "meta" (by decide),
          alGet_optEntry_ne "base_url" "meta" (by decide),
          alGet_optEntry_ne "auth_config_details" "meta" (by decide),
          alGet_optEntry_ne "slug" "auth_config_details" (by decide),
          alGet_optEntry_ne "name" "auth_config_details" (by decide),
          alGet_optEntry_ne "composio_managed_auth_schemes" "auth_config_details" (by decide),
          alGet_optEntry_ne "base_url" "auth_config_details" (by decide),
          alGet_optEntry_ne "meta" "auth_config_details" (by decide),
          Option.or_none,
          Option.none_or,
          Option.getD_none,
          Option.getD_some,
          wrapKvs_true,
          wrapKvs_false,
          asDictOrRaise_vobj,
          asDictOrRaise_vmap,
          ok_bind,
          pyIter,
          renderMeta,
          metaBs,
          hcats,
          alGet_optEntry_ne "description" "logo" (by decide),
          alGet_optEntry_ne "categories" "logo" (by decide),
          alGet_optEntry_ne "logo" "description" (by decide),
          alGet_optEntry_ne "categories" "description" (by decide),
          alGet_optEntry_ne "logo" "categories" (by decide),
          alGet_optEntry_ne "description" "categories" (by decide),
          catsList_shape,
          configsList_shape,
          hscan cl hcfg]

/-- A payload whose only auth config binds `connected_account_initiation` to
a group with neither requirement level present: as a mapping that group is
the falsy `{}`, as an object it is truthy. -/
def c6BadPayload : PPayload :=
  { pslug := some "slack", ppname := some "Slack", pcmas := some ["OAUTH2"],
    pbase := none, pmeta := none,
    pconfigs := some
      [{ cname := some "default", cmode := some "OAUTH2",
         cfields := some [("connected_account_initiation", { greq := none, gopt := none })] }] }

/-- A payload exercising every branch, whose initiation group has a
requirement level present. -/
def c6GoodPayload : PPayload :=
  { pslug := some "gmail", ppname := some "Gmail", pcmas := some ["OAUTH2"],
    pbase := some "https://gmail.googleapis.com",
    pmeta := some
      { mlogo := some "g.png", mdescription := some "Email",
        mcategories := some [{ pid := some "comm", pname := some "Communication" }] },
    pconfigs := some
      [{ cname := some "default", cmode := some "OAUTH2",
         cfields := some
           [("auth_config_creation",
             { greq := some [{ fname := some "client_id", fdisplay := some "Client ID",
                               ftype := some "string", fdescription := none,
                               frequired := some true, fdefault := none, flegacy := none }],
               gopt := none }),
            ("connected_account_initiation",
             { greq := some [], gopt := some [] })] }] }

/-- C6, counterexample: `get_detailed_toolkit_info` is not shape-agnostic.
Delivering `c6BadPayload` as nested attribute-bearing objects yields
initiation fields `{required: [], optional: []}`, while delivering the same
logical payload as nested mappings yields no initiation fields, because the
empty mapping bound to `connected_account_initiation` is falsy while the
corresponding object is truthy (line 365). -/
theorem c6_counterexample :
    get_detailed_toolkit_info (fun _ => .ok (renderPayload true c6BadPayload)) "slack" ≠
    get_detailed_toolkit_info (fun _ => .ok (renderPayload false c6BadPayload)) "slack" := by
  decide

/-- C6 (amended): `get_detailed_toolkit_info` produces identical normalized
output for the mapping delivery and the object delivery of the same logical
payload, provided no auth config binds `connected_account_initiation` to a
group with neither `required` nor `optional` key present (for such an empty
group the object delivery is truthy while the mapping delivery is falsy, and
only the object delivery populates the initiation fields). -/
theorem c6_shape_agnostic (p : PPayload) (h : payloadInitOk p = true)
    (slug : String) :
    get_detailed_toolkit_info (fun _ => .ok (renderPayload true p)) slug =
    get_detailed_toolkit_info (fun _ => .ok (renderPayload false p)) slug := by
  simp only [get_detailed_toolkit_info, detailBody_shape p h]

/-- C6 witness: the amended equivalence holds at a concrete payload covering
meta, categories, auth configs and a present initiation group. -/
theorem c6_shape_agnostic_witness :
    payloadInitOk c6GoodPayload = true ∧
    get_detailed_toolkit_info (fun _ => .ok (renderPayload true c6GoodPayload)) "gmail" =
    get_detailed_toolkit_info (fun _ => .ok (renderPayload false c6GoodPayload)) "gmail" :=
  ⟨by decide, c6_shape_agnostic c6GoodPayload (by decide) "gmail"⟩

/-! ## C7 and C8: `list_toolkits` normalization and pagination defaults -/

/-- A raw client response carrying the given items and nothing else. -/
def mkResp (items : List RVal) : RVal :=
  .vmap [("items", .vlist items)]

/-- The raw gmail catalog item of the specification example. -/
def gmailRaw : RVal :=
  .vmap
    [("slug", .vstr "gmail"),
     ("name", .vstr "Gmail"),
     ("auth_schemes", strListV ["OAUTH2"]),
     ("composio_managed_auth_schemes", strListV ["OAUTH2"]),
     ("meta", .vmap
       [("logo", .vstr "g.png"),
        ("description", .vstr "Email"),
        ("categories", .vlist [.vmap [("id", .vstr "comm"), ("name", .vstr "Communication")]])])]

/-- The summary the specification example expects for `gmailRaw`. -/
def gmailSummary : ToolkitInfo :=
  { slug := "gmail", name := "Gmail", description := some "Email",
    logo := some "g.png", tags := ["Communication"],
    auth_schemes := ["OAUTH2"], categories := ["comm"] }

/-- C7: on the raw gmail item of the example (OAUTH2 in both scheme lists,
meta with logo `g.png`, description `Email` and one category
`{id: comm, name: Communication}`), `list_toolkits` produces exactly the
summary `{slug: gmail, name: Gmail, description: Email, logo: g.png,
tags: [Communication], categories: [comm], authSchemes: [OAUTH2]}`. -/
theorem c7_gmail_example :
    list_toolkits (fun _ => .ok (mkResp [gmailRaw])) =
    .ok { items := [gmailSummary], total_items := .vint 1, total_pages := .vint 1,
          current_page := .vint 1, next_cursor := .vnone } := by
  decide

theorem alGetD_of_not_hasKey (kvs : List (String × RVal)) (k : String) (d : RVal)
    (h : hasKey kvs k = false) : alGetD kvs k d = d := by
  unfold hasKey at h
  unfold alGetD
  cases hget : alGet kvs k with
  | none => rfl
  | some v => rw [hget] at h; simp at h

/-- C8: whenever `list_toolkits` succeeds, it returns the record
`{items, total_items, total_pages, current_page, next_cursor}` (the
`ListResult` type), and every pagination field missing from the upstream
response dict defaults to the number of kept items, `1`, `1` and `None`
respectively. -/
theorem c8_pagination_defaults (resp : RVal) (rd : List (String × RVal))
    (lr : ListResult) (hrd : asDictOrRaise resp = .ok rd)
    (hok : normalizeResponse resp = .ok lr) :
    (hasKey rd "total_items" = false → lr.total_items = .vint lr.items.length) ∧
    (hasKey rd "total_pages" = false → lr.total_pages = .vint 1) ∧
    (hasKey rd "current_page" = false → lr.current_page = .vint 1) ∧
    (hasKey rd "next_cursor" = false → lr.next_cursor = .vnone) := by
  unfold normalizeResponse at hok
  rw [hrd] at hok
  simp only [ok_bind] at hok
  cases hit : pyIter (alGetD rd "items" (.vlist [])) with
  | error e => rw [hit] at hok; simp at hok
  | ok rawItems =>
    rw [hit] at hok
    simp only [ok_bind] at hok
    cases hcol : collectItems rawItems with
    | error e => rw [hcol] at hok; simp at hok
    | ok ts =>
      rw [hcol] at hok
      simp only [ok_bind, pure_eq_ok, Except.ok.injEq] at hok
      subst hok
      refine ⟨fun h => ?_, fun h => ?_, fun h => ?_, fun h => ?_⟩ <;>
        simp [alGetD_of_not_hasKey _ _ _ h]

/-- C8 witness: a response with no pagination keys gets all four defaults. -/
theorem c8_pagination_defaults_witness :
    (hasKey [("items", RVal.vlist [])] "total_items" = false →
      (RVal.vint ([] : List ToolkitInfo).length) = .vint ([] : List ToolkitInfo).length) ∧
    (hasKey [("items", RVal.vlist [])] "total_pages" = false → (RVal.vint 1) = .vint 1) ∧
    (hasKey [("items", RVal.vlist [])] "current_page" = false → (RVal.vint 1) = .vint 1) ∧
    (hasKey [("items", RVal.vlist [])] "next_cursor" = false → RVal.vnone = .vnone) := by
  have h := c8_pagination_defaults (mkResp []) [("items", .vlist [])]
    { items := [], total_items := .vint 0, total_pages := .vint 1,
      current_page := .vint 1, next_cursor := .vnone }
    (by decide) (by decide)
  exact h

/-! ## C5: error propagation policy -/

/-- C5: when the underlying client raises, `list_toolkits`,
`get_toolkit_by_slug` and `search_toolkits` re-raise the error to the caller,
and when normalization of a successful client response raises they re-raise
that error too; `get_toolkit_icon` and `get_detailed_toolkit_info` instead
swallow any client or normalization error and return `None`.
(`list_categories` performs no client call and cannot fail, so the policy is
vacuous for it.) -/
theorem c5_error_policy (e : PyErr) (slug q : String) (cat cur : Option String)
    (lim lim2 : Int) :
    list_toolkits (fun _ => .error e) lim cur cat = .error e ∧
    get_toolkit_by_slug (fun _ => .error e) slug = .error e ∧
    search_toolkits (fun _ => .error e) q cat lim2 cur = .error e ∧
    get_toolkit_icon (fun _ => .error e) slug = .vnone ∧
    get_detailed_toolkit_info (fun _ => .error e) slug = none ∧
    (∀ (v : RVal) (e2 : PyErr), normalizeResponse v = .error e2 →
      list_toolkits (fun _ => .ok v) lim cur cat = .error e2 ∧
      get_toolkit_by_slug (fun _ => .ok v) slug = .error e2 ∧
      search_toolkits (fun _ => .ok v) q cat lim2 cur = .error e2) ∧
    (∀ (v : RVal) (e2 : PyErr), iconBody v = .error e2 →
      get_toolkit_icon (fun _ => .ok v) slug = .vnone) ∧
    (∀ (v : RVal) (e2 : PyErr), detailBody v = .error e2 →
      get_detailed_toolkit_info (fun _ => .ok v) slug = none) := by
  refine ⟨rfl, rfl, rfl, rfl, rfl, ?_, ?_, ?_⟩
  · intro v e2 h
    refine ⟨?_, ?_, ?_⟩ <;>
      simp [list_toolkits, get_toolkit_by_slug, search_toolkits, h]
  · intro v e2 h
    simp [get_toolkit_icon, h]
  · intro v e2 h
    simp [get_detailed_toolkit_info, h]

/-- C5 witness: concrete error propagation and swallowing at a string-shaped
(invalid) client response and a raising client. -/
theorem c5_error_policy_witness :
    list_toolkits (fun _ => .error PyErr.typeError) 500 none none =
      .error PyErr.typeError ∧
    list_toolkits (fun _ => .ok (.vstr "bad")) 500 none none =
      .error PyErr.attributeError ∧
    get_toolkit_icon (fun _ => .ok (.vstr "bad")) "x" = .vnone ∧
    get_detailed_toolkit_info (fun _ => .ok (.vstr "bad")) "x" = none := by
  have h := c5_error_policy PyErr.typeError "x" "q" none none 500 100
  refine ⟨h.1, ?_, ?_, ?_⟩
  · exact (h.2.2.2.2.2.1 (.vstr "bad") PyErr.attributeError (by decide)).1
  · exact h.2.2.2.2.2.2.1 (.vstr "bad") PyErr.attributeError (by decide)
  · exact h.2.2.2.2.2.2.2 (.vstr "bad") PyErr.attributeError (by decide)

/-! ## C4: `get_toolkit_by_slug` -/

theorem findSlug_eq_none_iff (ts : List ToolkitInfo) (s : String) :
    findSlug ts s = none ↔ ∀ t ∈ ts, t.slug ≠ s := by
  induction ts with
  | nil => simp [findSlug]
  | cons t rest ih =>
    by_cases h : t.slug = s <;> simp [findSlug, h, ih]

theorem findSlug_eq_some (ts : List ToolkitInfo) (s : String) (t : ToolkitInfo)
    (h : findSlug ts s = some t) : t ∈ ts ∧ t.slug = s := by
  induction ts with
  | nil => simp [findSlug] at h
  | cons t0 rest ih =>
    by_cases h0 : t0.slug = s
    · simp only [findSlug, if_pos h0, Option.some.injEq] at h
      subst h
      exact ⟨List.mem_cons_self _ _, h0⟩
    · simp only [findSlug, if_neg h0] at h
      obtain ⟨hmem, hslug⟩ := ih h
      exact ⟨List.mem_cons_of_mem _ hmem, hslug⟩

/-- C4: whenever `get_toolkit_by_slug` succeeds, it fetched the full listing
with the default request (limit 500, no cursor, no category); it returns
`None` exactly when no listed summary carries the slug, and any returned
summary is one of the listed summaries (the first match) with that exact
slug. -/
theorem c4_get_by_slug (client : ListParams → Except PyErr RVal) (slug : String)
    (r : Option ToolkitInfo) (h : get_toolkit_by_slug client slug = .ok r) :
    ∃ lr : ListResult,
      list_toolkits client 500 none none = .ok lr ∧
      (r = none ↔ ∀ t ∈ lr.items, t.slug ≠ slug) ∧
      (∀ t : ToolkitInfo, r = some t → t ∈ lr.items ∧ t.slug = slug) := by
  unfold get_toolkit_by_slug at h
  cases hl : list_toolkits client 500 none none with
  | error e =>
    rw [show list_toolkits client = list_toolkits client 500 none none from rfl,
      hl] at h
    simp at h
  | ok lr =>
    rw [show list_toolkits client = list_toolkits client 500 none none from rfl,
      hl] at h
    simp only [except_map_ok, Except.ok.injEq] at h
    subst h
    refine ⟨lr, rfl, findSlug_eq_none_iff lr.items slug, ?_⟩
    intro t ht
    exact findSlug_eq_some lr.items slug t ht

/-- C4 witness: on a one-item listing, the present slug returns the exact
record and an absent slug returns `None`. -/
theorem c4_get_by_slug_witness :
    ∃ lr : ListResult,
      list_toolkits (fun _ => .ok (mkResp [gmailRaw])) 500 none none = .ok lr ∧
      ((some gmailSummary : Option ToolkitInfo) = none ↔
        ∀ t ∈ lr.items, t.slug ≠ "gmail") ∧
      (∀ t : ToolkitInfo, (some gmailSummary : Option ToolkitInfo) = some t →
        t ∈ lr.items ∧ t.slug = "gmail") :=
  c4_get_by_slug (fun _ => .ok (mkResp [gmailRaw])) "gmail" (some gmailSummary)
    (by decide)

/-! ## C2 and C3: `search_toolkits` -/

theorem pySlice_subset (l : List ToolkitInfo) (k : Int) : pySlice l k ⊆ l := by
  unfold pySlice
  by_cases h : 0 ≤ k <;> simp [h, List.take_subset]

/-- C2: whenever `search_toolkits` and the `list_toolkits` call it delegates
to (limit 500, same cursor and category) both succeed, every returned item is
one of the listed items, and every returned item contains the lowercased
query in its lowercased name, or in its lowercased description when one is
present, or in at least one lowercased tag. -/
theorem c2_search_subset (client : ListParams → Except PyErr RVal) (q : String)
    (cat cur : Option String) (lim : Int) (sr : SearchResult) (lr : ListResult)
    (hs : search_toolkits client q cat lim cur = .ok sr)
    (hl : list_toolkits client 500 cur cat = .ok lr) :
    (∀ t ∈ sr.items, t ∈ lr.items) ∧
    (∀ t ∈ sr.items,
      strIn (pyLower q) (pyLower t.name) = true ∨
      (∃ d, t.description = some d ∧ strIn (pyLower q) (pyLower d) = true) ∨
      (∃ tag ∈ t.tags, strIn (pyLower q) (pyLower tag) = true)) := by
  unfold search_toolkits at hs
  rw [hl] at hs
  simp only [except_map_ok, Except.ok.injEq] at hs
  subst hs
  constructor
  · intro t ht
    have h1 : t ∈ lr.items.filter (matchesQuery q) := pySlice_subset _ _ ht
    exact (List.mem_filter.mp h1).1
  · intro t ht
    have h1 : t ∈ lr.items.filter (matchesQuery q) := pySlice_subset _ _ ht
    have hm : matchesQuery q t = true := (List.mem_filter.mp h1).2
    unfold matchesQuery at hm
    simp only [Bool.or_eq_true] at hm
    rcases hm with (hn | hd) | ht2
    · exact Or.inl hn
    · right; left
      cases hdesc : t.description with
      | none => rw [hdesc] at hd; simp at hd
      | some d =>
        rw [hdesc] at hd
        simp only [Bool.and_eq_true] at hd
        exact ⟨d, rfl, hd.2⟩
    · right; right
      simpa [List.any_eq_true] using ht2

/-- C2 witness: a concrete one-item catalog where the query matches the name. -/
theorem c2_search_subset_witness :
    (∀ t ∈ [gmailSummary], t ∈ [gmailSummary]) ∧
    (∀ t ∈ [gmailSummary],
      strIn (pyLower "MAIL") (pyLower t.name) = true ∨
      (∃ d, t.description = some d ∧ strIn (pyLower "MAIL") (pyLower d) = true) ∨
      (∃ tag ∈ t.tags, strIn (pyLower "MAIL") (pyLower tag) = true)) := by
  have h := c2_search_subset (fun _ => .ok (mkResp [gmailRaw])) "MAIL" none none 100
    { items := [gmailSummary], total_items := 1, total_pages := 1,
      current_page := 1, next_cursor := none }
    { items := [gmailSummary], total_items := .vint 1, total_pages := .vint 1,
      current_page := .vint 1, next_cursor := .vnone }
    (by decide) (by decide)
  exact h

/-- C3, counterexample: with a negative `limit`, Python slicing `[:limit]`
drops from the end instead of truncating to at most `limit` items, so
"never returns more than limit items" fails: two items match, `limit = -1`,
one item is returned, and `1 ≤ -1` is false. -/
theorem c3_counterexample :
    search_toolkits
      (fun _ => .ok (mkResp [gmailRaw, gmailRaw])) "gmail" none (-1) none =
      .ok { items := [gmailSummary], total_items := 2, total_pages := 1,
            current_page := 1, next_cursor := none } ∧
    ¬ ((1 : Int) ≤ -1) := by
  constructor
  · decide
  · decide

/-- C3 (amended): whenever `search_toolkits` succeeds, for a nonnegative
`limit` it returns at most `limit` items (for a negative `limit` the Python
slice `[:limit]` instead drops `-limit` items from the end); `total_items`
is the number of matching items before truncation, and `total_pages`,
`current_page` and `next_cursor` are fixed at `1`, `1` and `None`. -/
theorem c3_search_pagination (client : ListParams → Except PyErr RVal)
    (q : String) (cat cur : Option String) (lim : Int) (sr : SearchResult)
    (hs : search_toolkits client q cat lim cur = .ok sr) :
    (0 ≤ lim → (sr.items.length : Int) ≤ lim) ∧
    (∃ lr : ListResult,
      list_toolkits client 500 cur cat = .ok lr ∧
      sr.total_items = ((lr.items.filter (matchesQuery q)).length : Int) ∧
      sr.items = pySlice (lr.items.filter (matchesQuery q)) lim) ∧
    sr.total_pages = 1 ∧ sr.current_page = 1 ∧ sr.next_cursor = none := by
  unfold search_toolkits at hs
  cases hl : list_toolkits client 500 cur cat with
  | error e => rw [hl] at hs; simp at hs
  | ok lr =>
    rw [hl] at hs
    simp only [except_map_ok, Except.ok.injEq] at hs
    subst hs
    refine ⟨?_, ⟨lr, rfl, rfl, rfl⟩, rfl, rfl, rfl⟩
    intro hnn
    show ((pySlice (lr.items.filter (matchesQuery q)) lim).length : Int) ≤ lim
    unfold pySlice
    rw [if_pos hnn]
    have hle : ((lr.items.filter (matchesQuery q)).take lim.toNat).length ≤ lim.toNat := by
      simp [List.length_take]
    omega

/-- C3 witness: three matching items, limit 2: two returned, `total_items`
is 3, pagination fields fixed. -/
theorem c3_search_pagination_witness :
    (0 ≤ (2 : Int) →
      (([gmailSummary, gmailSummary] : List ToolkitInfo).length : Int) ≤ 2) ∧
    (∃ lr : ListResult,
      list_toolkits (fun _ => .ok (mkResp [gmailRaw, gmailRaw, gmailRaw]))
        500 none none = .ok lr ∧
      ((3 : Int) = ((lr.items.filter (matchesQuery "gmail")).length : Int)) ∧
      [gmailSummary, gmailSummary] =
        pySlice (lr.items.filter (matchesQuery "gmail")) 2) ∧
    (1 : Int) = 1 ∧ (1 : Int) = 1 ∧ (none : Option String) = none := by
  have h := c3_search_pagination
    (fun _ => .ok (mkResp [gmailRaw, gmailRaw, gmailRaw])) "gmail" none none 2
    { items := [gmailSummary, gmailSummary], total_items := 3, total_pages := 1,
      current_page := 1, next_cursor := none }
    (by decide)
  exact h

/-! ## C1: the OAUTH2 inclusion filter of `list_toolkits` -/

/-- The summary an individual raw item yields: `none` when the item is
skipped by the OAUTH2 guard (or when normalizing it raises). -/
def summaryOf (i : RVal) : Option ToolkitInfo :=
  match normItem i with
  | .ok o => o
  | .error _ => none

/-- A top-level field of a raw item, with the `[]` default the guard uses. -/
def rawField (i : RVal) (k : String) : RVal :=
  match asDictOrRaise i with
  | .ok td => alGetD td k (.vlist [])
  | .error _ => .vlist []

/-- The item's declared auth schemes, read as a list of strings. -/
def authSchemesOf (i : RVal) : List String :=
  match asStrList (rawField i "auth_schemes") with
  | .ok l => l
  | .error _ => []

/-- The item's provider-managed auth schemes, read as a list of strings. -/
def managedSchemesOf (i : RVal) : List String :=
  match asStrList (rawField i "composio_managed_auth_schemes") with
  | .ok l => l
  | .error _ => []

/-- Both scheme fields of the item are lists of strings. -/
def schemesWF (i : RVal) : Bool :=
  (match asStrList (rawField i "auth_schemes") with
   | .ok _ => true
   | .error _ => false) &&
  (match asStrList (rawField i "composio_managed_auth_schemes") with
   | .ok _ => true
   | .error _ => false)

theorem bind_ok_elim {α β : Type} {a : Except PyErr α} {f : α → Except PyErr β}
    {o : β} (h : (a >>= f) = .ok o) : ∃ x, a = .ok x ∧ f x = .ok o := by
  cases a with
  | ok x => exact ⟨x, rfl, h⟩
  | error e => simp at h

theorem asStr_ok {v : RVal} {s : String} (h : asStr v = .ok s) : v = .vstr s := by
  cases v <;> simp_all [asStr]

theorem mapM_asStr_ok {xs : List RVal} {l : List String}
    (h : xs.mapM asStr = .ok l) : xs = l.map .vstr := by
  induction xs generalizing l with
  | nil =>
    simp only [List.mapM_nil, pure_eq_ok, Except.ok.injEq] at h
    subst h
    rfl
  | cons x rest ih =>
    rw [List.mapM_cons] at h
    obtain ⟨s, hs, h⟩ := bind_ok_elim h
    obtain ⟨rest', hrest, h⟩ := bind_ok_elim h
    simp only [pure_eq_ok, Except.ok.injEq] at h
    subst h
    rw [asStr_ok hs, List.map_cons, ih hrest]

theorem asStrList_ok {v : RVal} {l : List String}
    (h : asStrList v = .ok l) : v = strListV l := by
  cases v <;> simp [asStrList] at h
  case vlist xs => rw [strListV, mapM_asStr_ok h]

theorem strListV_contains (l : List String) (s : String) :
    (l.map RVal.vstr).contains (.vstr s) = l.contains s := by
  induction l with
  | nil => rfl
  | cons a rest ih =>
    have hb : (RVal.vstr s == RVal.vstr a) = (s == a) := by
      by_cases h : s = a
      · subst h
        simp
      · rw [beq_eq_false_iff_ne.mpr (fun hh => h (by injection hh)),
          beq_eq_false_iff_ne.mpr h]
    simp only [List.map_cons, List.contains_cons, ih, hb]

theorem pyContains_strListV (s : String) (l : List String) :
    pyContains s (strListV l) = .ok (l.contains s) := by
  simp [pyContains, strListV, strListV_contains]

theorem collectItems_ok {l : List RVal} {ts : List ToolkitInfo}
    (h : collectItems l = .ok ts) :
    ts = l.filterMap summaryOf ∧ ∀ i ∈ l, ∃ o, normItem i = .ok o := by
  induction l generalizing ts with
  | nil =>
    simp only [collectItems, Except.ok.injEq] at h
    subst h
    simp
  | cons i rest ih =>
    unfold collectItems at h
    obtain ⟨o, ho, h⟩ := bind_ok_elim h
    obtain ⟨rest', hrest, h⟩ := bind_ok_elim h
    obtain ⟨h1, h2⟩ := ih hrest
    have hsum : summaryOf i = o := by
      unfold summaryOf
      rw [ho]
    cases o with
    | some t =>
      simp only [Except.ok.injEq] at h
      subst h
      subst h1
      refine ⟨by simp [List.filterMap_cons, hsum], ?_⟩
      intro j hj
      rcases List.mem_cons.mp hj with hj | hj
      · exact ⟨some t, hj ▸ ho⟩
      · exact h2 j hj
    | none =>
      simp only [Except.ok.injEq] at h
      subst h
      subst h1
      refine ⟨by simp [List.filterMap_cons, hsum], ?_⟩
      intro j hj
      rcases List.mem_cons.mp hj with hj | hj
      · exact ⟨none, hj ▸ ho⟩
      · exact h2 j hj

theorem normItem_isSome {i : RVal} {o : Option ToolkitInfo} {la lc : List String}
    (ha : asStrList (rawField i "auth_schemes") = .ok la)
    (hc : asStrList (rawField i "composio_managed_auth_schemes") = .ok lc)
    (h : normItem i = .ok o) :
    o.isSome = (la.contains "OAUTH2" && lc.contains "OAUTH2") := by
  cases hi : asDictOrRaise i with
  | error e =>
    unfold normItem at h
    rw [hi] at h
    simp at h
  | ok td =>
    have hfa : rawField i "auth_schemes" = alGetD td "auth_schemes" (.vlist []) := by
      unfold rawField
      rw [hi]
    have hfc : rawField i "composio_managed_auth_schemes" =
        alGetD td "composio_managed_auth_schemes" (.vlist []) := by
      unfold rawField
      rw [hi]
    rw [hfa] at ha
    rw [hfc] at hc
    have hva := asStrList_ok ha
    have hvc := asStrList_ok hc
    unfold normItem at h
    rw [hi] at h
    simp only [ok_bind] at h
    rw [hva, hvc, pyContains_strListV, pyContains_strListV] at h
    simp only [ok_bind] at h
    cases hb1 : la.contains "OAUTH2" with
    | false =>
      rw [hb1] at h
      simp only [Bool.not_false, if_true, pure_eq_ok, Except.ok.injEq] at h
      subst h
      simp [hb1]
    | true =>
      rw [hb1] at h
      simp only [Bool.not_true, Bool.false_eq_true, if_false] at h
      cases hb2 : lc.contains "OAUTH2" with
      | false =>
        rw [hb2] at h
        simp only [Bool.not_false, if_true, pure_eq_ok, Except.ok.injEq] at h
        subst h
        simp [hb1, hb2]
      | true =>
        rw [hb2] at h
        simp only [Bool.not_true, Bool.false_eq_true, if_false] at h
        obtain ⟨x1, h1, h⟩ := bind_ok_elim h
        obtain ⟨x2, h2, h⟩ := bind_ok_elim h
        obtain ⟨x3, h3, h⟩ := bind_ok_elim h
        obtain ⟨x4, h4, h⟩ := bind_ok_elim h
        obtain ⟨x5, h5, h⟩ := bind_ok_elim h
        obtain ⟨x6, h6, h⟩ := bind_ok_elim h
        obtain ⟨x7, h7, h⟩ := bind_ok_elim h
        obtain ⟨x8, h8, h⟩ := bind_ok_elim h
        simp only [pure_eq_ok, Except.ok.injEq] at h
        subst h
        simp [hb1, hb2]

/-- C1: when `list_toolkits` succeeds on a response whose items all carry
string-list scheme fields, the returned summaries are exactly the per-item
normalizations in order (`filterMap`: one summary per kept item, none for a
dropped item), and an item yields a summary precisely when `"OAUTH2"` is a
member of both its `auth_schemes` list and its
`composio_managed_auth_schemes` list. -/
theorem c1_oauth_filter (rawItems : List RVal) (lr : ListResult)
    (hok : normalizeResponse (mkResp rawItems) = .ok lr)
    (hwf : ∀ i ∈ rawItems, schemesWF i = true) :
    lr.items = rawItems.filterMap summaryOf ∧
    ∀ i ∈ rawItems,
      ((summaryOf i).isSome = true ↔
        ("OAUTH2" ∈ authSchemesOf i ∧ "OAUTH2" ∈ managedSchemesOf i)) := by
  unfold normalizeResponse at hok
  simp only [mkResp, asDictOrRaise_vmap, ok_bind] at hok
  have hitems : alGetD [("items", RVal.vlist rawItems)] "items" (.vlist []) =
      .vlist rawItems := rfl
  rw [hitems] at hok
  simp only [pyIter, ok_bind] at hok
  cases hcol : collectItems rawItems with
  | error e =>
    rw [hcol] at hok
    simp at hok
  | ok ts =>
    rw [hcol] at hok
    simp only [ok_bind, pure_eq_ok, Except.ok.injEq] at hok
    obtain ⟨hfm, hex⟩ := collectItems_ok hcol
    constructor
    · rw [← hok]
      exact hfm
    · intro i hi
      have hw := hwf i hi
      unfold schemesWF at hw
      cases hA : asStrList (rawField i "auth_schemes") with
      | error e => rw [hA] at hw; simp at hw
      | ok la =>
        cases hC : asStrList (rawField i "composio_managed_auth_schemes") with
        | error e => rw [hA, hC] at hw; simp at hw
        | ok lc =>
          obtain ⟨o, ho⟩ := hex i hi
          have hsum : summaryOf i = o := by
            unfold summaryOf
            rw [ho]
          have hs := normItem_isSome hA hC ho
          rw [hsum, hs]
          have hca : authSchemesOf i = la := by
            unfold authSchemesOf
            rw [hA]
          have hcc : managedSchemesOf i = lc := by
            unfold managedSchemesOf
            rw [hC]
          rw [hca, hcc]
          simp [List.contains, List.elem_eq_mem]

/-- C1 witness: a two-item response, one item with OAUTH2 in both lists and
one without: the first yields exactly one summary, the second none. -/
theorem c1_oauth_filter_witness :
    ([gmailSummary] : List ToolkitInfo) =
      [gmailRaw, .vmap [("slug", .vstr "x"),
        ("auth_schemes", strListV ["API_KEY"]),
        ("composio_managed_auth_schemes", strListV [])]].filterMap summaryOf ∧
    ∀ i ∈ [gmailRaw, RVal.vmap [("slug", .vstr "x"),
        ("auth_schemes", strListV ["API_KEY"]),
        ("composio_managed_auth_schemes", strListV [])]],
      ((summaryOf i).isSome = true ↔
        ("OAUTH2" ∈ authSchemesOf i ∧ "OAUTH2" ∈ managedSchemesOf i)) := by
  have h := c1_oauth_filter
    [gmailRaw, .vmap [("slug", .vstr "x"),
      ("auth_schemes", strListV ["API_KEY"]),
      ("composio_managed_auth_schemes", strListV [])]]
    { items := [gmailSummary], total_items := .vint 1, total_pages := .vint 1,
      current_page := .vint 1, next_cursor := .vnone }
    (by decide) (by decide)
  exact h

/-! ## C9 and C10: summary vs detail normalization divergences -/

theorem mapM_asStr_of_map {α : Type} (f : α → String) (l : List α) :
    (l.map (fun a => RVal.vstr (f a))).mapM asStr = .ok (l.map f) := by
  induction l with
  | nil => rfl
  | cons a rest ih =>
    rw [List.map_cons, List.mapM_cons, List.map_cons]
    simp only [asStr, ok_bind, ih, pure_eq_ok]

theorem mapM_asStr_id (l : List String) : (l.map RVal.vstr).mapM asStr = .ok l := by
  induction l with
  | nil => rfl
  | cons a rest ih =>
    rw [List.map_cons, List.mapM_cons]
    simp only [asStr, ok_bind, ih, pure_eq_ok]

theorem asStrList_strListV (l : List String) : asStrList (strListV l) = .ok l := by
  simp only [asStrList, strListV, mapM_asStr_id]

/-- The `meta` mapping holding only the given id/name category pairs. -/
def c9Meta (cl : List (String × String)) : RVal :=
  .vmap [("categories",
    .vlist (cl.map (fun p => .vmap [("id", .vstr p.1), ("name", .vstr p.2)])))]

/-- Bindings of a raw item/retrieve record with the given scheme lists and
category pairs. -/
def c9Kvs (sl nm : String) (asch csch : List String)
    (cl : List (String × String)) : List (String × RVal) :=
  [("slug", .vstr sl), ("name", .vstr nm),
   ("auth_schemes", strListV asch),
   ("composio_managed_auth_schemes", strListV csch),
   ("meta", c9Meta cl)]

/-- A raw item/retrieve record whose `meta` holds only the given id/name
category pairs, with the given scheme lists. -/
def c9Item (sl nm : String) (asch csch : List String)
    (cl : List (String × String)) : RVal :=
  .vmap (c9Kvs sl nm asch csch cl)

theorem fold_cats (cl : List (String × String)) (acc : List RVal × List RVal) :
    List.foldl
      (fun (acc : List RVal × List RVal) (cat : RVal) =>
        match cat with
        | .vmap ckvs =>
          (acc.1 ++ [(alGet ckvs "name").getD (.vstr "")],
           acc.2 ++ [(alGet ckvs "id").getD (.vstr "")])
        | .vobj ckvs =>
          (acc.1 ++ [(alGet ckvs "name").getD (.vstr "")],
           acc.2 ++ [(alGet ckvs "id").getD (.vstr "")])
        | _ => acc)
      acc (cl.map (fun p => .vmap [("id", .vstr p.1), ("name", .vstr p.2)]))
    = (acc.1 ++ cl.map (fun p => .vstr p.2),
       acc.2 ++ cl.map (fun p => .vstr p.1)) := by
  induction cl generalizing acc with
  | nil => simp
  | cons p rest ih =>
    simp only [List.map_cons, List.foldl_cons, ih]
    simp [alGet]

theorem itemTagsCats_c9 (cl : List (String × String)) :
    itemTagsCats (c9Meta cl) =
    .ok (cl.map (fun p => RVal.vstr p.2), cl.map (fun p => RVal.vstr p.1)) := by
  simp [itemTagsCats, c9Meta, hasKey, alGet, alGetD, pyIter, fold_cats]

theorem map_detailCatName (cl : List (String × String)) :
    cl.map (detailCatName ∘ fun p => RVal.vmap [("id", .vstr p.1), ("name", .vstr p.2)]) =
    cl.map (fun p => RVal.vstr p.2) := by
  induction cl with
  | nil => rfl
  | cons p rest ih =>
    simp only [List.map_cons, ih, List.cons.injEq, and_true]
    simp [detailCatName, alGetD, alGet]

theorem mapM_loop_asStr_of_map {α : Type} (f : α → String) (l : List α) :
    List.mapM.loop asStr (l.map (fun a => RVal.vstr (f a))) [] = .ok (l.map f) :=
  mapM_asStr_of_map f l

theorem c9Kvs_auth (sl nm : String) (asch csch : List String)
    (cl : List (String × String)) :
    alGetD (c9Kvs sl nm asch csch cl) "auth_schemes" (.vlist []) =
    strListV asch := by
  simp [c9Kvs, alGetD, alGet]

theorem c9Kvs_managed (sl nm : String) (asch csch : List String)
    (cl : List (String × String)) :
    alGetD (c9Kvs sl nm asch csch cl) "composio_managed_auth_schemes" (.vlist []) =
    strListV csch := by
  simp [c9Kvs, alGetD, alGet]

theorem c9Kvs_meta (sl nm : String) (asch csch : List String)
    (cl : List (String × String)) :
    alGetD (c9Kvs sl nm asch csch cl) "meta" (.vmap []) = c9Meta cl := by
  simp [c9Kvs, alGetD, alGet]

/-- C9: on a successfully retrieved record, `get_detailed_toolkit_info`
returns `tags = []`, `categories` holding the category names from `meta`,
and `auth_schemes` read from `composio_managed_auth_schemes`; for the same
record `list_toolkits` normalization instead returns the category ids in
`categories` (with the names in `tags`) and `auth_schemes` read from the
`auth_schemes` field. -/
theorem c9_detail_vs_summary (sl nm : String) (asch csch : List String)
    (cl : List (String × String))
    (h1 : asch.contains "OAUTH2" = true) (h2 : csch.contains "OAUTH2" = true) :
    detailBody (c9Item sl nm asch csch cl) =
      .ok { slug := sl, name := nm, description := some "", logo := none,
            tags := [], auth_schemes := csch,
            categories := cl.map (fun p => .vstr p.2),
            auth_config_details := [],
            connected_account_initiation_fields := none, base_url := none } ∧
    normItem (c9Item sl nm asch csch cl) =
      .ok (some { slug := sl, name := nm, description := none, logo := none,
                  tags := cl.map (fun p => p.2), auth_schemes := asch,
                  categories := cl.map (fun p => p.1) }) := by
  constructor
  · simp only [detailBody, c9Item, asDictOrRaise_vmap, ok_bind, c9Kvs_meta]
    simp only [c9Kvs, c9Meta, alGetD, alGet, if_true, if_false, eq_self_iff_true]
    simp [asStr, asOptStr, asStrList_strListV, pyIter, scanInitiation, alGet,
      map_detailCatName,
      show List.mapM.loop parseConfig ([] : List RVal) [] =
        Except.ok ([] : List AuthConfigDetails) from rfl]
  · unfold normItem
    simp only [c9Item, asDictOrRaise_vmap, ok_bind, c9Kvs_auth, c9Kvs_managed,
      c9Kvs_meta, pyContains_strListV, h1, h2]
    simp only [Bool.not_true, Bool.false_eq_true, if_false, itemTagsCats_c9,
      ok_bind]
    simp [c9Meta, c9Kvs, alGetD, alGet, truthy, asStr, asOptStr,
      mapM_asStr_of_map, mapM_loop_asStr_of_map, asStrList_strListV]

/-- C9 witness: the divergence at a concrete record with category
`{id: comm, name: Communication}`. -/
theorem c9_detail_vs_summary_witness :
    detailBody (c9Item "gmail" "Gmail" ["OAUTH2"] ["OAUTH2"] [("comm", "Communication")]) =
      .ok { slug := "gmail", name := "Gmail", description := some "", logo := none,
            tags := [], auth_schemes := ["OAUTH2"],
            categories := [("comm", "Communication")].map
              (fun p => RVal.vstr p.2),
            auth_config_details := [],
            connected_account_initiation_fields := none, base_url := none } ∧
    normItem (c9Item "gmail" "Gmail" ["OAUTH2"] ["OAUTH2"] [("comm", "Communication")]) =
      .ok (some { slug := "gmail", name := "Gmail", description := none, logo := none,
                  tags := [("comm", "Communication")].map (fun p => p.2),
                  auth_schemes := ["OAUTH2"],
                  categories := [("comm", "Communication")].map (fun p => p.1) }) :=
  c9_detail_vs_summary "gmail" "Gmail" ["OAUTH2"] ["OAUTH2"]
    [("comm", "Communication")] (by decide) (by decide)

/-! ## C10: logo/description fallbacks in `list_toolkits` but not in
`get_toolkit_icon` -/

/-- A raw record whose `meta` carries the given logo/description values and
whose top level carries fallback logo/description strings. -/
def c10Item (sl nm : String) (ml md : RVal) (lt dt : String) : RVal :=
  .vmap
    [("slug", .vstr sl), ("name", .vstr nm),
     ("auth_schemes", strListV ["OAUTH2"]),
     ("composio_managed_auth_schemes", strListV ["OAUTH2"]),
     ("meta", .vmap [("logo", ml), ("description", md)]),
     ("logo", .vstr lt), ("description", .vstr dt)]

/-- A raw record whose `meta` has no logo/description keys at all. -/
def c10ItemNoMeta (sl nm lt dt : String) : RVal :=
  .vmap
    [("slug", .vstr sl), ("name", .vstr nm),
     ("auth_schemes", strListV ["OAUTH2"]),
     ("composio_managed_auth_schemes", strListV ["OAUTH2"]),
     ("meta", .vmap []),
     ("logo", .vstr lt), ("description", .vstr dt)]

/-- C10: in `list_toolkits` normalization, a falsy (empty-string) or absent
`meta.logo` falls back to the top-level `logo`, and likewise for the
description, while truthy meta values win; `get_toolkit_icon` performs no
such fallback: it returns exactly `meta.logo` (the empty string, or `None`
when absent), never the top-level logo. -/
theorem c10_meta_fallbacks (sl nm lt dt ls2 ds2 : String)
    (hls : ls2 ≠ "") (hds : ds2 ≠ "") :
    normItem (c10Item sl nm (.vstr "") (.vstr "") lt dt) =
      .ok (some { slug := sl, name := nm, description := some dt,
                  logo := some lt, tags := [], auth_schemes := ["OAUTH2"],
                  categories := [] }) ∧
    normItem (c10ItemNoMeta sl nm lt dt) =
      .ok (some { slug := sl, name := nm, description := some dt,
                  logo := some lt, tags := [], auth_schemes := ["OAUTH2"],
                  categories := [] }) ∧
    normItem (c10Item sl nm (.vstr ls2) (.vstr ds2) lt dt) =
      .ok (some { slug := sl, name := nm, description := some ds2,
                  logo := some ls2, tags := [], auth_schemes := ["OAUTH2"],
                  categories := [] }) ∧
    get_toolkit_icon (fun _ => .ok (c10Item sl nm (.vstr "") (.vstr "") lt dt)) sl =
      .vstr "" ∧
    get_toolkit_icon (fun _ => .ok (c10ItemNoMeta sl nm lt dt)) sl = .vnone ∧
    get_toolkit_icon (fun _ => .ok (c10Item sl nm (.vstr ls2) (.vstr ds2) lt dt)) sl =
      .vstr ls2 := by
  refine ⟨?_, ?_, ?_, ?_, ?_, ?_⟩ <;>
    simp [normItem, c10Item, c10ItemNoMeta, get_toolkit_icon, iconBody,
      alGetD, alGet, pyContains_strListV, itemTagsCats, hasKey, truthy,
      asStr, asOptStr, asStrList_strListV, hls, hds,
      show List.mapM.loop asStr ([] : List RVal) [] =
        Except.ok ([] : List String) from rfl]

/-- C10 witness: the fallbacks at concrete strings. -/
theorem c10_meta_fallbacks_witness :
    normItem (c10Item "gmail" "Gmail" (.vstr "") (.vstr "") "top.png" "TopDesc") =
      .ok (some { slug := "gmail", name := "Gmail", description := some "TopDesc",
                  logo := some "top.png", tags := [], auth_schemes := ["OAUTH2"],
                  categories := [] }) ∧
    normItem (c10ItemNoMeta "gmail" "Gmail" "top.png" "TopDesc") =
      .ok (some { slug := "gmail", name := "Gmail", description := some "TopDesc",
                  logo := some "top.png", tags := [], auth_schemes := ["OAUTH2"],
                  categories := [] }) ∧
    normItem (c10Item "gmail" "Gmail" (.vstr "m.png") (.vstr "MetaDesc") "top.png" "TopDesc") =
      .ok (some { slug := "gmail", name := "Gmail", description := some "MetaDesc",
                  logo := some "m.png", tags := [], auth_schemes := ["OAUTH2"],
                  categories := [] }) ∧
    get_toolkit_icon
      (fun _ => .ok (c10Item "gmail" "Gmail" (.vstr "") (.vstr "") "top.png" "TopDesc"))
      "gmail" = .vstr "" ∧
    get_toolkit_icon (fun _ => .ok (c10ItemNoMeta "gmail" "Gmail" "top.png" "TopDesc"))
      "gmail" = .vnone ∧
    get_toolkit_icon
      (fun _ => .ok (c10Item "gmail" "Gmail" (.vstr "m.png") (.vstr "MetaDesc") "top.png" "TopDesc"))
      "gmail" = .vstr "m.png" :=
  c10_meta_fallbacks "gmail" "Gmail" "top.png" "TopDesc" "m.png" "MetaDesc"
    (by decide) (by decide)
